import Mathlib

/-!
# Input value validation of the UWP renderer

A shallow embedding of `source/uwp/Renderer/lib/InputValue.cpp` (with the
declarations of `InputValue.h`): the classes `InputValue`, `TextInputBase`,
`TextInputValue`, `NumberInputValue`, `DateInputValue`, `TimeInputValue`,
`ToggleInputValue` and `ChoiceSetInputValue`; and of
`AdaptiveToggleInputRenderer::Render` (`AdaptiveToggleInputRenderer.cpp`).

Conventions of the embedding.

* A method returning `HRESULT` with an out-parameter becomes a function into
  `Except Failure α`; `RETURN_IF_FAILED` is the early return of the error.  A
  C++ exception that leaves a method is an error of the same kind.
* A method that mutates the instance or a XAML control returns the outcome
  together with the new instance, so that what was written before a failure
  is kept.
* `HSTRING`/`HString` and `std::string` are `String`.  The WinRT string
  handle of the empty string is the null handle, so `HString::IsValid()` is
  "is not empty".
* An event of a control is the number of handlers this instance has added to
  it; every handler the source adds runs `Validate(nullptr)`.
* `INT32`/`UINT`/`INT64` are `Int`/`Nat` with explicit wrap-around where the
  source can overflow.
-/

namespace AdaptiveNamespace

/-! ## Failures -/

/-- The ways a call can end without a value. -/
inductive Failure where
  /-- The failed `HRESULT` of `IVector::GetAt` for an index past the end. -/
  | E_BOUNDS
  /-- The failed `HRESULT` of `ComPtr::As` on an object of another class. -/
  | E_NOINTERFACE
  /-- The exception `std::regex_error` thrown by the constructor of `std::regex`. -/
  | regex_error
  /-- The invalid-parameter failure of `sprintf_s` when the buffer is too small. -/
  | invalid_parameter
  deriving DecidableEq

/-- The value `MAXINT32` of the Windows headers. -/
def MAXINT32 : Int := 2147483647

/-- The test `HString::IsValid()`: the handle is not null, that is, the string is not empty. -/
def HString.IsValid (s : String) : Bool := decide (s ≠ "")

/-! ## The parsed card model (read only) -/

/-- The properties of `IAdaptiveTextInput` the validation reads. -/
structure AdaptiveTextInput where
  IsRequired : Bool
  /-- The declared pattern; the empty string when none is declared. -/
  Regex : String
  deriving DecidableEq

/-- The properties of `IAdaptiveNumberInput` the validation reads (`int` bounds). -/
structure AdaptiveNumberInput where
  IsRequired : Bool
  Min : Int
  Max : Int
  deriving DecidableEq

/-- The properties of `IAdaptiveDateInput` the validation reads. -/
structure AdaptiveDateInput where
  IsRequired : Bool
  deriving DecidableEq

/-- The properties of `IAdaptiveTimeInput` the validation reads. -/
structure AdaptiveTimeInput where
  IsRequired : Bool
  /-- The declared minimum; the empty string when none is declared. -/
  Min : String
  /-- The declared maximum; the empty string when none is declared. -/
  Max : String
  deriving DecidableEq

/-- The properties of `IAdaptiveToggleInput` the validation and the renderer read. -/
structure AdaptiveToggleInput where
  IsRequired : Bool
  Value : String
  ValueOn : String
  ValueOff : String
  deriving DecidableEq

/-- One choice of a choice set (`IAdaptiveChoiceInput`). -/
structure AdaptiveChoiceInput where
  Value : String
  deriving DecidableEq

/-- The enumeration `ChoiceSetStyle`. -/
inductive ChoiceSetStyle where
  | Compact
  | Expanded
  deriving DecidableEq

/-- The properties of `IAdaptiveChoiceSetInput` the validation reads. -/
structure AdaptiveChoiceSetInput where
  IsRequired : Bool
  ChoiceSetStyle : ChoiceSetStyle
  IsMultiSelect : Bool
  Choices : List AdaptiveChoiceInput
  deriving DecidableEq

/-! ## The XAML controls -/

/-- The structure `Thickness` of a border. -/
structure Thickness where
  Left : Nat
  Top : Nat
  Right : Nat
  Bottom : Nat
  deriving DecidableEq

/-- The enumeration `Visibility`. -/
inductive Visibility where
  | Visible
  | Collapsed
  deriving DecidableEq

/-- The border around an input (`IBorder`). -/
structure Border where
  BorderThickness : Thickness
  deriving DecidableEq

/-- The error message region (`IUIElement` of `m_validationError`). -/
structure ErrorMessage where
  Visibility : Visibility
  deriving DecidableEq

/-- A `TextBox`: its text and the handlers added to its events. -/
structure TextBox where
  Text : String
  TextChanged : Nat
  LostFocus : Nat
  deriving DecidableEq

/-- The calendar date a `DateTime` stands for. -/
structure DateTime where
  year : Nat
  month : Nat
  day : Nat
  deriving DecidableEq

/-- A `CalendarDatePicker`: `Date` is the null reference when no date is picked. -/
structure CalendarDatePicker where
  Date : Option DateTime
  DateChanged : Nat
  LostFocus : Nat
  deriving DecidableEq

/-- A `TimePicker`: `Time` is the `Duration` of its `TimeSpan`, an `INT64` count of 100 ns ticks. -/
structure TimePicker where
  Time : Int
  TimeChanged : Nat
  LostFocus : Nat
  deriving DecidableEq

/-- A `CheckBox` or `RadioButton` (`IToggleButton`, `IButtonBase`). -/
structure CheckBox where
  IsChecked : Bool
  Click : Nat
  LostFocus : Nat
  deriving DecidableEq

/-- A `ComboBox` (`ISelector`). -/
structure Selector where
  SelectedIndex : Int
  SelectionChanged : Nat
  LostFocus : Nat
  deriving DecidableEq

/-- The element a choice set is bound to: a selector, or a panel with its children. -/
inductive UIElement where
  | selector (s : Selector)
  | panel (Children : List CheckBox) (LostFocus : Nat)
  deriving DecidableEq

/-! ## Library functions the source calls -/

/-- Modelled from the spec: `XamlHelpers::GetToggleValue`, whose source is not part of these
files, reads "the control's checked boolean". -/
def XamlHelpers.GetToggleValue (item : CheckBox) : Bool := item.IsChecked

/-- The call `IVector::GetAt`: the element at the index, `E_BOUNDS` past the end.  The index
parameter is a `UINT`; an `INT32` argument that is negative arrives as a value of at least 2^31,
which is past the end of every vector here. -/
def IVector.GetAt {α : Type} (v : List α) (index : Int) : Except Failure α :=
  if index < 0 then .error .E_BOUNDS
  else
    match v[index.toNat]? with
    | some x => .ok x
    | none => .error .E_BOUNDS

/-- The functions of the C++ library and of the shared object model that the validation calls
and whose code is outside these files. -/
structure Externals where
  /-- The constructor `std::regex pattern(p)`: `none` when it throws `std::regex_error`, else
  the test `std::regex_match(value, matches, pattern)` of the pattern it built. -/
  regex : (p : String) → Option (String → Bool)
  /-- The conversion `std::stoi`; `none` when it throws. -/
  stoi : String → Option Int
  /-- The parser `DateTimePreparser::TryParseSimpleTime`: hours and minutes, or `none` for `false`. -/
  TryParseSimpleTime : String → Option (Nat × Nat)

/-- Equality of outcomes is decidable. -/
instance instDecidableEqOutcome {ε α : Type} [DecidableEq ε] [DecidableEq α] : DecidableEq (Except ε α)
  | .ok a, .ok b => if h : a = b then isTrue (by rw [h]) else isFalse (by intro h2; cases h2; exact h rfl)
  | .error a, .error b => if h : a = b then isTrue (by rw [h]) else isFalse (by intro h2; cases h2; exact h rfl)
  | .ok _, .error _ => isFalse (by intro h; cases h)
  | .error _, .ok _ => isFalse (by intro h; cases h)

/-! ## Reference implementations of the library functions

A small executable model of the library functions on the inputs the examples below use: the
ECMAScript patterns built from literals, `.`, bracket classes, the escapes `\\d \\w \\s` (and
their negations outside brackets), groups, `|`, `*`, `+`, `?`, `^` and `$`.  The general theorems
hold for every `Externals`; this one gives the concrete instances.  A pattern outside the subset
(for instance one with a counted repetition) is reported like one that is not well formed, and
no statement below uses the model on such a pattern. -/

namespace Reference

/-- One item between the brackets of a character class. -/
inductive ClassItem where
  /-- The characters from `lo` to `hi`. -/
  | range (lo hi : Char)
  /-- The decimal digits, `\d`. -/
  | digit
  /-- The letters, digits and underscore, `\w`. -/
  | word
  /-- The white space characters, `\s`. -/
  | space
  deriving DecidableEq

/-- Whether a character belongs to an item. -/
def ClassItem.test (c : Char) : ClassItem → Bool
  | .range lo hi => decide (lo.toNat ≤ c.toNat) && decide (c.toNat ≤ hi.toNat)
  | .digit => decide (48 ≤ c.toNat) && decide (c.toNat ≤ 57)
  | .word =>
      (decide (48 ≤ c.toNat) && decide (c.toNat ≤ 57)) || (decide (65 ≤ c.toNat) && decide (c.toNat ≤ 90))
        || (decide (97 ≤ c.toNat) && decide (c.toNat ≤ 122)) || decide (c.toNat = 95)
  | .space => (decide (9 ≤ c.toNat) && decide (c.toNat ≤ 13)) || decide (c.toNat = 32)

/-- A parsed pattern. -/
inductive Pattern where
  /-- Matches nothing. -/
  | none
  /-- Matches the empty string. -/
  | empty
  /-- The assertion `^`. -/
  | bol
  /-- The assertion `$`. -/
  | eol
  /-- One character: in one of the items, or in none of them when `negated`. -/
  | cls (negated : Bool) (items : List ClassItem)
  | seq (a b : Pattern)
  | alt (a b : Pattern)
  | star (a : Pattern)

/-- Whether the pattern matches the empty string at a position that is or is not the start
and the end of the value. -/
def Pattern.nullable (atStart atEnd : Bool) : Pattern → Bool
  | .none => false
  | .empty => true
  | .bol => atStart
  | .eol => atEnd
  | .cls _ _ => false
  | .seq a b => a.nullable atStart atEnd && b.nullable atStart atEnd
  | .alt a b => a.nullable atStart atEnd || b.nullable atStart atEnd
  | .star _ => true

/-- The pattern of what may follow the character `c`. -/
def Pattern.deriv (atStart : Bool) (c : Char) : Pattern → Pattern
  | .none => .none
  | .empty => .none
  | .bol => .none
  | .eol => .none
  | .cls negated items => if (items.any (ClassItem.test c)) != negated then .empty else .none
  | .seq a b =>
      if a.nullable atStart false then .alt (.seq (a.deriv atStart c) b) (b.deriv atStart c)
      else .seq (a.deriv atStart c) b
  | .alt a b => .alt (a.deriv atStart c) (b.deriv atStart c)
  | .star a => .seq (a.deriv atStart c) (.star a)

/-- Whether the pattern matches the whole of the characters. -/
def Pattern.matches (p : Pattern) (atStart : Bool) : List Char → Bool
  | [] => p.nullable atStart true
  | c :: cs => Pattern.matches (p.deriv atStart c) false cs

/-- A group that is being read: the alternatives that are complete, and the items of the
current alternative, both in reverse. -/
structure Frame where
  alts : List Pattern
  items : List Pattern

/-- The sequence of the items (given in reverse). -/
def sequence : List Pattern → Pattern
  | [] => .empty
  | p :: ps => ps.foldl (fun acc q => .seq q acc) p

/-- The pattern of a group that is complete. -/
def Frame.close (f : Frame) : Pattern :=
  f.alts.foldl (fun acc q => .alt q acc) (sequence f.items)

/-- The pattern of an escape `\c` outside brackets. -/
def escape (c : Char) : Pattern :=
  if c = 'd' then .cls false [.digit]
  else if c = 'D' then .cls true [.digit]
  else if c = 'w' then .cls false [.word]
  else if c = 'W' then .cls true [.word]
  else if c = 's' then .cls false [.space]
  else if c = 'S' then .cls true [.space]
  else .cls false [.range c c]

/-- The item of an escape between brackets; the negated escapes are outside the subset. -/
def classEscape (c : Char) : Option ClassItem :=
  if c = 'd' then some .digit
  else if c = 'w' then some .word
  else if c = 's' then some .space
  else if c = 'D' ∨ c = 'W' ∨ c = 'S' then none
  else some (.range c c)

/-- What the parser is reading: a sequence, or the inside of brackets. -/
inductive Mode where
  | normal
  | brackets (negated : Bool) (items : List ClassItem)

/-- The parser: `none` for a pattern that is not well formed (a group or brackets that are not
closed, a `)` without `(`, a repetition of nothing, a `\` at the end). -/
def parse : Nat → List Char → Mode → Frame → List Frame → Option Pattern
  | 0, _, _, _, _ => Option.none
  | _ + 1, [], .normal, f, [] => some f.close
  | _ + 1, [], .normal, _, _ :: _ => Option.none
  | _ + 1, [], .brackets _ _, _, _ => Option.none
  | n + 1, c :: cs, .brackets negated items, f, st =>
      if c = ']' then parse n cs .normal { f with items := .cls negated items.reverse :: f.items } st
      else if c = '\\' then
        match cs with
        | [] => Option.none
        | e :: cs' =>
            match classEscape e with
            | some it => parse n cs' (.brackets negated (it :: items)) f st
            | Option.none => Option.none
      else
        match cs with
        | '-' :: hi :: cs' =>
            if hi = ']' then parse n cs (.brackets negated (.range c c :: items)) f st
            else if hi = '\\' then Option.none
            else if c.toNat ≤ hi.toNat then parse n cs' (.brackets negated (.range c hi :: items)) f st
            else Option.none
        | _ => parse n cs (.brackets negated (.range c c :: items)) f st
  | n + 1, c :: cs, .normal, f, st =>
      if c = '(' then parse n cs .normal ⟨[], []⟩ (f :: st)
      else if c = ')' then
        match st with
        | [] => Option.none
        | g :: st' => parse n cs .normal { g with items := f.close :: g.items } st'
      else if c = '|' then parse n cs .normal ⟨sequence f.items :: f.alts, []⟩ st
      else if c = '*' then
        match f.items with
        | [] => Option.none
        | p :: ps => parse n cs .normal { f with items := .star p :: ps } st
      else if c = '+' then
        match f.items with
        | [] => Option.none
        | p :: ps => parse n cs .normal { f with items := .seq p (.star p) :: ps } st
      else if c = '?' then
        match f.items with
        | [] => Option.none
        | p :: ps => parse n cs .normal { f with items := .alt p .empty :: ps } st
      else if c = '^' then parse n cs .normal { f with items := .bol :: f.items } st
      else if c = '$' then parse n cs .normal { f with items := .eol :: f.items } st
      else if c = '.' then parse n cs .normal { f with items := .cls true [.range '\n' '\n', .range '\r' '\r'] :: f.items } st
      else if c = '[' then
        match cs with
        | '^' :: cs' => parse n cs' (.brackets true []) f st
        | _ => parse n cs (.brackets false []) f st
      else if c = '\\' then
        match cs with
        | [] => Option.none
        | e :: cs' => parse n cs' .normal { f with items := escape e :: f.items } st
      else if c.toNat = 123 ∨ c.toNat = 125 then Option.none
      else parse n cs .normal { f with items := .cls false [.range c c] :: f.items } st

/-- The pattern compiled by `std::regex`, as its whole-string test (`std::regex_match`). -/
def regex (p : String) : Option (String → Bool) :=
  match parse (p.length + 1) p.data .normal ⟨[], []⟩ [] with
  | some pat => some (fun value => pat.matches true value.data)
  | Option.none => Option.none

/-- The value of a run of decimal digits. -/
def digitsValue (cs : List Char) : Nat := cs.foldl (fun acc c => 10 * acc + (c.toNat - 48)) 0

/-- The conversion `std::stoi`: white space, an optional sign, decimal digits; `none` for
`std::invalid_argument` (no digit) and `std::out_of_range` (not an `int`). -/
def stoi (s : String) : Option Int :=
  let cs := s.data.dropWhile (ClassItem.test · .space)
  let signed : Bool × List Char :=
    match cs with
    | c :: rest => if c = '-' then (true, rest) else if c = '+' then (false, rest) else (false, cs)
    | [] => (false, cs)
  let ds := signed.2.takeWhile (ClassItem.test · .digit)
  if ds.isEmpty then Option.none
  else
    let v : Int := if signed.1 then -(digitsValue ds : Int) else (digitsValue ds : Int)
    if -MAXINT32 - 1 ≤ v ∧ v ≤ MAXINT32 then some v else Option.none

/-- Modelled from the spec: `DateTimePreparser::TryParseSimpleTime` belongs to the shared object
model, whose source is not part of these files; the spec writes the bounds it parses as `HH:MM`
(`"09:00"`, `"17:00"`).  Two digits, a colon, two digits, with hours below 24 and minutes
below 60. -/
def TryParseSimpleTime (s : String) : Option (Nat × Nat) :=
  match s.data with
  | [h1, h2, colon, m1, m2] =>
      if colon = ':' ∧ [h1, h2, m1, m2].all (ClassItem.test · .digit) then
        let hours := digitsValue [h1, h2]
        let minutes := digitsValue [m1, m2]
        if hours < 24 ∧ minutes < 60 then some (hours, minutes) else Option.none
      else Option.none
  | _ => Option.none

end Reference

/-- The reference library. -/
def stdlib : Externals where
  regex := Reference.regex
  stoi := Reference.stoi
  TryParseSimpleTime := Reference.TryParseSimpleTime

/-! ## The instance -/

/-- The members the subclasses add to `InputValue`: the typed model, the typed control (the
object `m_uiInputElement` points to) and the flag that guards the value-changed handler. -/
inductive Derived where
  | TextInputValue (m_adaptiveTextInput : AdaptiveTextInput) (m_textBoxElement : TextBox)
      (m_isTextChangedValidationEnabled : Bool)
  | NumberInputValue (m_adaptiveNumberInput : AdaptiveNumberInput) (m_textBoxElement : TextBox)
      (m_isTextChangedValidationEnabled : Bool)
  | DateInputValue (m_adaptiveDateInput : AdaptiveDateInput) (m_datePickerElement : CalendarDatePicker)
      (m_isDateChangedValidationEnabled : Bool)
  | TimeInputValue (m_adaptiveTimeInput : AdaptiveTimeInput) (m_timePickerElement : TimePicker)
      (m_isTimeChangedValidationEnabled : Bool)
  | ToggleInputValue (m_adaptiveToggleInput : AdaptiveToggleInput) (m_checkBoxElement : CheckBox)
      (m_isToggleChangedValidationEnabled : Bool)
  | ChoiceSetInputValue (m_adaptiveChoiceSetInput : AdaptiveChoiceSetInput) (m_uiInputElement : UIElement)
      (m_isChoiceSetChangedValidationEnabled : Bool)
  deriving DecidableEq

/-- An instance of a subclass of `InputValue`; the two feedback regions may be null. -/
structure InputValue where
  m_validationBorder : Option Border
  m_validationError : Option ErrorMessage
  derived : Derived
  deriving DecidableEq

/-- The call `m_adaptiveInputElement->get_IsRequired`. -/
def InputValue.get_IsRequired (self : InputValue) : Bool :=
  match self.derived with
  | .TextInputValue m _ _ => m.IsRequired
  | .NumberInputValue m _ _ => m.IsRequired
  | .DateInputValue m _ _ => m.IsRequired
  | .TimeInputValue m _ _ => m.IsRequired
  | .ToggleInputValue m _ _ => m.IsRequired
  | .ChoiceSetInputValue m _ _ => m.IsRequired

/-! ## Value accessors (`get_CurrentValue`) -/

/-- The method `TextInputBase::get_CurrentValue`. -/
def TextInputBase.get_CurrentValue (m_textBoxElement : TextBox) : Except Failure String :=
  .ok m_textBoxElement.Text

/-- A number in decimal with at least two digits (`%02llu`, `integer(2)`). -/
def twoDigits (n : Nat) : String :=
  if n < 10 then "0" ++ Nat.repr n else Nat.repr n

/-- The formatter of the template `year.full`-`month.integer(2)`-`day.integer(2)`. -/
def DateTimeFormatter.Format (date : DateTime) : String :=
  Nat.repr date.year ++ "-" ++ twoDigits date.month ++ "-" ++ twoDigits date.day

/-- The method `DateInputValue::get_CurrentValue`. -/
def DateInputValue.get_CurrentValue (m_datePickerElement : CalendarDatePicker) : Except Failure String :=
  match m_datePickerElement.Date with
  | some date => .ok (DateTimeFormatter.Format date)
  | none => .ok ""

/-- The call `sprintf_s` into a buffer of `sizeOfBuffer` bytes (the text and its terminator). -/
def sprintf_s (sizeOfBuffer : Nat) (text : String) : Except Failure String :=
  if text.length < sizeOfBuffer then .ok text else .error .invalid_parameter

/-- The method `TimeInputValue::get_CurrentValue`. -/
def TimeInputValue.get_CurrentValue (m_timePickerElement : TimePicker) : Except Failure String :=
  let timeSpan := m_timePickerElement.Time
  let totalMinutes : Nat := (Int.tdiv (Int.tdiv timeSpan 10000000) 60 % 18446744073709551616).toNat
  let hours : Nat := totalMinutes / 60
  let minutesPastTheHour : Nat := totalMinutes - hours * 60
  sprintf_s 6 (twoDigits hours ++ ":" ++ twoDigits minutesPastTheHour)

/-- The method `ToggleInputValue::get_CurrentValue`. -/
def ToggleInputValue.get_CurrentValue (m_adaptiveToggleInput : AdaptiveToggleInput)
    (m_checkBoxElement : CheckBox) : Except Failure String :=
  let checkedValue := XamlHelpers.GetToggleValue m_checkBoxElement
  if checkedValue then .ok m_adaptiveToggleInput.ValueOn else .ok m_adaptiveToggleInput.ValueOff

/-- The method `ChoiceSetInputValue::GetChoiceValue`; what it throws is the error.  The callers
that pass the `UINT` index of a child pass an index below 2^31, which the conversion to `INT32`
keeps. -/
def ChoiceSetInputValue.GetChoiceValue (choiceInput : AdaptiveChoiceSetInput) (selectedIndex : Int) :
    Except Failure String :=
  if selectedIndex ≠ -1 then
    match IVector.GetAt choiceInput.Choices selectedIndex with
    | .error e => .error e
    | .ok choice => .ok choice.Value
  else .ok ""

/-- The loop of the multi-select branch of `ChoiceSetInputValue::get_CurrentValue`, from the
child of index `i` on, with the text gathered so far. -/
def ChoiceSetInputValue.multiSelectLoop (m_adaptiveChoiceSetInput : AdaptiveChoiceSetInput) :
    List CheckBox → Nat → String → Except Failure String
  | [], _, multiSelectValues => .ok multiSelectValues
  | currentElement :: rest, i, multiSelectValues =>
      let checkedValue := XamlHelpers.GetToggleValue currentElement
      if checkedValue then
        match GetChoiceValue m_adaptiveChoiceSetInput i with
        | .error e => .error e
        | .ok choiceValue => multiSelectLoop m_adaptiveChoiceSetInput rest (i + 1) (multiSelectValues ++ (choiceValue ++ ","))
      else multiSelectLoop m_adaptiveChoiceSetInput rest (i + 1) multiSelectValues

/-- The loop of the single-select branch: the index of the first checked child from the child
of index `i` on, or `-1`. -/
def ChoiceSetInputValue.singleSelectLoop : List CheckBox → Nat → Int
  | [], _ => -1
  | currentElement :: rest, i =>
      let checkedValue := XamlHelpers.GetToggleValue currentElement
      if checkedValue then (i : Int) else singleSelectLoop rest (i + 1)

/-- The call `s.substr(0, count)`. -/
def substr0 (s : String) (count : Nat) : String := String.mk (s.data.take count)

/-- The method `ChoiceSetInputValue::get_CurrentValue`; the function `try` block turns what
`GetChoiceValue` throws into the returned failure. -/
def ChoiceSetInputValue.get_CurrentValue (m_adaptiveChoiceSetInput : AdaptiveChoiceSetInput)
    (m_uiInputElement : UIElement) : Except Failure String :=
  let choiceSetStyle := m_adaptiveChoiceSetInput.ChoiceSetStyle
  let isMultiSelect := m_adaptiveChoiceSetInput.IsMultiSelect
  if choiceSetStyle = .Compact ∧ isMultiSelect = false then
    match m_uiInputElement with
    | .panel _ _ => .error .E_NOINTERFACE
    | .selector selector => GetChoiceValue m_adaptiveChoiceSetInput selector.SelectedIndex
  else
    match m_uiInputElement with
    | .selector _ => .error .E_NOINTERFACE
    | .panel panelChildren _ =>
        if isMultiSelect then
          match multiSelectLoop m_adaptiveChoiceSetInput panelChildren 0 "" with
          | .error e => .error e
          | .ok multiSelectValues =>
              if multiSelectValues ≠ "" then .ok (substr0 multiSelectValues (multiSelectValues.length - 1))
              else .ok multiSelectValues
        else
          let selectedIndex := singleSelectLoop panelChildren 0
          GetChoiceValue m_adaptiveChoiceSetInput selectedIndex

/-- The virtual call `get_CurrentValue` (pure in `InputValue`). -/
def InputValue.get_CurrentValue (self : InputValue) : Except Failure String :=
  match self.derived with
  | .TextInputValue _ box _ => TextInputBase.get_CurrentValue box
  | .NumberInputValue _ box _ => TextInputBase.get_CurrentValue box
  | .DateInputValue _ picker _ => DateInputValue.get_CurrentValue picker
  | .TimeInputValue _ picker _ => TimeInputValue.get_CurrentValue picker
  | .ToggleInputValue m box _ => ToggleInputValue.get_CurrentValue m box
  | .ChoiceSetInputValue m ui _ => ChoiceSetInputValue.get_CurrentValue m ui

/-! ## Validity (`IsValueValid`) -/

/-- The method `InputValue::IsValueValid`, the required check of the base class. -/
def InputValue.IsValueValid (self : InputValue) : Except Failure Bool :=
  let isRequired := self.get_IsRequired
  if isRequired then
    match self.get_CurrentValue with
    | .error e => .error e
    | .ok currentValue =>
        let isRequiredValid := HString.IsValid currentValue
        .ok isRequiredValid
  else .ok true

/-- The method `TextInputValue::IsValueValid`. -/
def TextInputValue.IsValueValid (E : Externals) (self : InputValue)
    (m_adaptiveTextInput : AdaptiveTextInput) : Except Failure Bool :=
  match InputValue.IsValueValid self with
  | .error e => .error e
  | .ok isBaseValid =>
      let regex := m_adaptiveTextInput.Regex
      if HString.IsValid regex then
        match E.regex regex with
        | none => .error .regex_error
        | some pattern =>
            match self.get_CurrentValue with
            | .error e => .error e
            | .ok currentValue =>
                let isRegexValid := pattern currentValue
                .ok (isBaseValid && isRegexValid)
      else .ok (isBaseValid && true)

/-- The method `NumberInputValue::IsValueValid`; `minMaxValid` is computed and not used. -/
def NumberInputValue.IsValueValid (E : Externals) (self : InputValue)
    (m_adaptiveNumberInput : AdaptiveNumberInput) : Except Failure Bool :=
  match InputValue.IsValueValid self with
  | .error e => .error e
  | .ok isBaseValid =>
      let max := m_adaptiveNumberInput.Max
      let min := m_adaptiveNumberInput.Min
      if min ≠ -MAXINT32 ∧ max ≠ MAXINT32 then
        match self.get_CurrentValue with
        | .error e => .error e
        | .ok currentValue =>
            let minMaxValid : Bool :=
              match E.stoi currentValue with
              | some currentInt => decide (currentInt < max) && decide (currentInt > min)
              | none => false
            let _unused := minMaxValid
            .ok isBaseValid
      else
        let minMaxValid : Bool := true
        let _unused := minMaxValid
        .ok isBaseValid

/-- The `TimeSpan` of a bound: `(INT64)(hours * 60 + minutes) * 10000000 * 60`, the sum in
`unsigned int`. -/
def TimeInputValue.boundTime (hours minutes : Nat) : Int :=
  (((hours * 60 + minutes) % 4294967296 : Nat) : Int) * 10000000 * 60

/-- The method `TimeInputValue::IsValueValid`; `|=` is the inclusive or. -/
def TimeInputValue.IsValueValid (E : Externals) (self : InputValue)
    (m_adaptiveTimeInput : AdaptiveTimeInput) (m_timePickerElement : TimePicker) : Except Failure Bool :=
  match InputValue.IsValueValid self with
  | .error e => .error e
  | .ok isBaseValid =>
      let currentTime := m_timePickerElement.Time
      let isMaxMinValid₀ : Bool := true
      let minTimeString := m_adaptiveTimeInput.Min
      let isMaxMinValid₁ : Bool :=
        if HString.IsValid minTimeString then
          match E.TryParseSimpleTime minTimeString with
          | some (minHours, minMinutes) =>
              isMaxMinValid₀ || decide (currentTime > boundTime minHours minMinutes)
          | none => isMaxMinValid₀
        else isMaxMinValid₀
      let maxTimeString := m_adaptiveTimeInput.Max
      let isMaxMinValid₂ : Bool :=
        if HString.IsValid maxTimeString then
          match E.TryParseSimpleTime maxTimeString with
          | some (maxHours, maxMinutes) =>
              isMaxMinValid₁ || decide (currentTime < boundTime maxHours maxMinutes)
          | none => isMaxMinValid₁
        else isMaxMinValid₁
      .ok (isBaseValid && isMaxMinValid₂)

/-- The method `ToggleInputValue::IsValueValid`. -/
def ToggleInputValue.IsValueValid (self : InputValue) (m_checkBoxElement : CheckBox) :
    Except Failure Bool :=
  let isRequired := self.get_IsRequired
  if isRequired then
    let isToggleChecked := XamlHelpers.GetToggleValue m_checkBoxElement
    let meetsRequirement := isToggleChecked
    .ok meetsRequirement
  else .ok true

/-- The virtual call `IsValueValid`: the override of the class of the instance. -/
def InputValue.virtual_IsValueValid (E : Externals) (self : InputValue) : Except Failure Bool :=
  match self.derived with
  | .TextInputValue m _ _ => TextInputValue.IsValueValid E self m
  | .NumberInputValue m _ _ => NumberInputValue.IsValueValid E self m
  | .DateInputValue _ _ _ => InputValue.IsValueValid self
  | .TimeInputValue m picker _ => TimeInputValue.IsValueValid E self m picker
  | .ToggleInputValue _ box _ => ToggleInputValue.IsValueValid self box
  | .ChoiceSetInputValue _ _ _ => InputValue.IsValueValid self

/-! ## Change-triggered revalidation (`EnableValueChangedValidation`) -/

/-- The method `TextInputBase::EnableValueChangedValidation`. -/
def TextInputBase.EnableValueChangedValidation (m_textBoxElement : TextBox)
    (m_isTextChangedValidationEnabled : Bool) : Except Failure Unit × TextBox × Bool :=
  if !m_isTextChangedValidationEnabled then
    (.ok (), { m_textBoxElement with TextChanged := m_textBoxElement.TextChanged + 1 }, true)
  else (.ok (), m_textBoxElement, m_isTextChangedValidationEnabled)

/-- The method `DateInputValue::EnableValueChangedValidation`. -/
def DateInputValue.EnableValueChangedValidation (m_datePickerElement : CalendarDatePicker)
    (m_isDateChangedValidationEnabled : Bool) : Except Failure Unit × CalendarDatePicker × Bool :=
  if !m_isDateChangedValidationEnabled then
    (.ok (), { m_datePickerElement with DateChanged := m_datePickerElement.DateChanged + 1 }, true)
  else (.ok (), m_datePickerElement, m_isDateChangedValidationEnabled)

/-- The method `TimeInputValue::EnableValueChangedValidation`. -/
def TimeInputValue.EnableValueChangedValidation (m_timePickerElement : TimePicker)
    (m_isTimeChangedValidationEnabled : Bool) : Except Failure Unit × TimePicker × Bool :=
  if !m_isTimeChangedValidationEnabled then
    (.ok (), { m_timePickerElement with TimeChanged := m_timePickerElement.TimeChanged + 1 }, true)
  else (.ok (), m_timePickerElement, m_isTimeChangedValidationEnabled)

/-- The method `ToggleInputValue::EnableValueChangedValidation`. -/
def ToggleInputValue.EnableValueChangedValidation (m_checkBoxElement : CheckBox)
    (m_isToggleChangedValidationEnabled : Bool) : Except Failure Unit × CheckBox × Bool :=
  if !m_isToggleChangedValidationEnabled then
    (.ok (), { m_checkBoxElement with Click := m_checkBoxElement.Click + 1 }, true)
  else (.ok (), m_checkBoxElement, m_isToggleChangedValidationEnabled)

/-- The call `add_Click` on a choice control. -/
def CheckBox.add_Click (element : CheckBox) : CheckBox :=
  { element with Click := element.Click + 1 }

/-- The method `ChoiceSetInputValue::EnableValueChangedValidation`. -/
def ChoiceSetInputValue.EnableValueChangedValidation (m_adaptiveChoiceSetInput : AdaptiveChoiceSetInput)
    (m_uiInputElement : UIElement) (m_isChoiceSetChangedValidationEnabled : Bool) :
    Except Failure Unit × UIElement × Bool :=
  if !m_isChoiceSetChangedValidationEnabled then
    let choiceSetStyle := m_adaptiveChoiceSetInput.ChoiceSetStyle
    let isMultiSelect := m_adaptiveChoiceSetInput.IsMultiSelect
    if choiceSetStyle = .Compact ∧ isMultiSelect = false then
      match m_uiInputElement with
      | .panel _ _ => (.error .E_NOINTERFACE, m_uiInputElement, m_isChoiceSetChangedValidationEnabled)
      | .selector selector =>
          (.ok (), .selector { selector with SelectionChanged := selector.SelectionChanged + 1 }, true)
    else
      match m_uiInputElement with
      | .selector _ => (.error .E_NOINTERFACE, m_uiInputElement, m_isChoiceSetChangedValidationEnabled)
      | .panel panelChildren lostFocus =>
          (.ok (), .panel (panelChildren.map CheckBox.add_Click) lostFocus, true)
  else (.ok (), m_uiInputElement, m_isChoiceSetChangedValidationEnabled)

/-- The virtual call `EnableValueChangedValidation` (pure in `InputValue`). -/
def InputValue.EnableValueChangedValidation (self : InputValue) : Except Failure Unit × InputValue :=
  match self.derived with
  | .TextInputValue m box enabled =>
      let r := TextInputBase.EnableValueChangedValidation box enabled
      (r.1, { self with derived := .TextInputValue m r.2.1 r.2.2 })
  | .NumberInputValue m box enabled =>
      let r := TextInputBase.EnableValueChangedValidation box enabled
      (r.1, { self with derived := .NumberInputValue m r.2.1 r.2.2 })
  | .DateInputValue m picker enabled =>
      let r := DateInputValue.EnableValueChangedValidation picker enabled
      (r.1, { self with derived := .DateInputValue m r.2.1 r.2.2 })
  | .TimeInputValue m picker enabled =>
      let r := TimeInputValue.EnableValueChangedValidation picker enabled
      (r.1, { self with derived := .TimeInputValue m r.2.1 r.2.2 })
  | .ToggleInputValue m box enabled =>
      let r := ToggleInputValue.EnableValueChangedValidation box enabled
      (r.1, { self with derived := .ToggleInputValue m r.2.1 r.2.2 })
  | .ChoiceSetInputValue m ui enabled =>
      let r := ChoiceSetInputValue.EnableValueChangedValidation m ui enabled
      (r.1, { self with derived := .ChoiceSetInputValue m r.2.1 r.2.2 })

/-! ## Feedback and the entry point -/

/-- The method `InputValue::SetValidation`. -/
def InputValue.SetValidation (self : InputValue) (isInputValid : Bool) : Except Failure Unit × InputValue :=
  let self₁ : InputValue :=
    match self.m_validationBorder with
    | some _ =>
        if isInputValid then { self with m_validationBorder := some { BorderThickness := ⟨0, 0, 0, 0⟩ } }
        else { self with m_validationBorder := some { BorderThickness := ⟨1, 1, 1, 1⟩ } }
    | none => self
  let self₂ : InputValue :=
    match self₁.m_validationError with
    | some _ =>
        if isInputValid then { self₁ with m_validationError := some { Visibility := .Collapsed } }
        else { self₁ with m_validationError := some { Visibility := .Visible } }
    | none => self₁
  if !isInputValid then self₂.EnableValueChangedValidation
  else (.ok (), self₂)

/-- The method `InputValue::Validate`, with the validity it writes to `isInputValid`. -/
def InputValue.Validate (E : Externals) (self : InputValue) : Except Failure Bool × InputValue :=
  match self.virtual_IsValueValid E with
  | .error e => (.error e, self)
  | .ok isValid =>
      match self.SetValidation isValid with
      | (.error e, self₁) => (.error e, self₁)
      | (.ok (), self₁) => (.ok isValid, self₁)

/-! ## Focus-loss revalidation and initialization -/

/-- The call `add_LostFocus` on the element a choice set is bound to. -/
def UIElement.add_LostFocus : UIElement → UIElement
  | .selector s => .selector { s with LostFocus := s.LostFocus + 1 }
  | .panel children lostFocus => .panel children (lostFocus + 1)

/-- The method `InputValue::EnableFocusLostValidation`: a handler on `m_uiInputElement`. -/
def InputValue.EnableFocusLostValidation (self : InputValue) : Except Failure Unit × InputValue :=
  let derived : Derived :=
    match self.derived with
    | .TextInputValue m box enabled => .TextInputValue m { box with LostFocus := box.LostFocus + 1 } enabled
    | .NumberInputValue m box enabled => .NumberInputValue m { box with LostFocus := box.LostFocus + 1 } enabled
    | .DateInputValue m picker enabled => .DateInputValue m { picker with LostFocus := picker.LostFocus + 1 } enabled
    | .TimeInputValue m picker enabled => .TimeInputValue m { picker with LostFocus := picker.LostFocus + 1 } enabled
    | .ToggleInputValue m box enabled => .ToggleInputValue m { box with LostFocus := box.LostFocus + 1 } enabled
    | .ChoiceSetInputValue m ui enabled => .ChoiceSetInputValue m ui.add_LostFocus enabled
  (.ok (), { self with derived := derived })

/-- The method `ChoiceSetInputValue::EnableFocusLostValidation`; `size - 1` is computed in `UINT`. -/
def ChoiceSetInputValue.EnableFocusLostValidation (self : InputValue)
    (m_adaptiveChoiceSetInput : AdaptiveChoiceSetInput) (m_uiInputElement : UIElement)
    (m_isChoiceSetChangedValidationEnabled : Bool) : Except Failure Unit × InputValue :=
  let choiceSetStyle := m_adaptiveChoiceSetInput.ChoiceSetStyle
  let isMultiSelect := m_adaptiveChoiceSetInput.IsMultiSelect
  if choiceSetStyle = .Compact ∧ isMultiSelect = false then
    InputValue.EnableFocusLostValidation self
  else
    match m_uiInputElement with
    | .selector _ => (.error .E_NOINTERFACE, self)
    | .panel panelChildren lostFocus =>
        let size := panelChildren.length
        let index : Nat := (size + 4294967295) % 4294967296
        match IVector.GetAt panelChildren index with
        | .error e => (.error e, self)
        | .ok lastElement =>
            let children := panelChildren.set index { lastElement with LostFocus := lastElement.LostFocus + 1 }
            let derived : Derived :=
              .ChoiceSetInputValue m_adaptiveChoiceSetInput (.panel children lostFocus)
                m_isChoiceSetChangedValidationEnabled
            (.ok (), { self with derived := derived })

/-- The virtual call `EnableFocusLostValidation`. -/
def InputValue.virtual_EnableFocusLostValidation (self : InputValue) : Except Failure Unit × InputValue :=
  match self.derived with
  | .ChoiceSetInputValue m ui enabled => ChoiceSetInputValue.EnableFocusLostValidation self m ui enabled
  | _ => InputValue.EnableFocusLostValidation self

/-- The render context, of which the validation reads `GetInlineValidation`. -/
structure AdaptiveRenderContext where
  InlineValidation : Bool
  deriving DecidableEq

/-- The method `InputValue::RuntimeClassInitialize`, on the instance whose members the
subclass and the first four assignments have set. -/
def InputValue.RuntimeClassInitialize (renderContext : AdaptiveRenderContext) (self : InputValue) :
    Except Failure Unit × InputValue :=
  let inlineValidation := renderContext.InlineValidation
  if inlineValidation then self.virtual_EnableFocusLostValidation
  else (.ok (), self)

/-- The method `TextInputValue::RuntimeClassInitialize` (through `TextInputBase`). -/
def TextInputValue.RuntimeClassInitialize (renderContext : AdaptiveRenderContext)
    (adaptiveTextInput : AdaptiveTextInput) (uiTextBoxElement : TextBox)
    (validationBorder : Option Border) (validationError : Option ErrorMessage) :
    Except Failure Unit × InputValue :=
  InputValue.RuntimeClassInitialize renderContext
    ⟨validationBorder, validationError, .TextInputValue adaptiveTextInput uiTextBoxElement false⟩

/-- The method `NumberInputValue::RuntimeClassInitialize` (through `TextInputBase`). -/
def NumberInputValue.RuntimeClassInitialize (renderContext : AdaptiveRenderContext)
    (adaptiveNumberInput : AdaptiveNumberInput) (uiTextBoxElement : TextBox)
    (validationBorder : Option Border) (validationError : Option ErrorMessage) :
    Except Failure Unit × InputValue :=
  InputValue.RuntimeClassInitialize renderContext
    ⟨validationBorder, validationError, .NumberInputValue adaptiveNumberInput uiTextBoxElement false⟩

/-- The method `DateInputValue::RuntimeClassInitialize`. -/
def DateInputValue.RuntimeClassInitialize (renderContext : AdaptiveRenderContext)
    (adaptiveDateInput : AdaptiveDateInput) (uiDatePickerElement : CalendarDatePicker)
    (validationBorder : Option Border) (validationError : Option ErrorMessage) :
    Except Failure Unit × InputValue :=
  InputValue.RuntimeClassInitialize renderContext
    ⟨validationBorder, validationError, .DateInputValue adaptiveDateInput uiDatePickerElement false⟩

/-- The method `TimeInputValue::RuntimeClassInitialize`. -/
def TimeInputValue.RuntimeClassInitialize (renderContext : AdaptiveRenderContext)
    (adaptiveTimeInput : AdaptiveTimeInput) (uiTimePickerElement : TimePicker)
    (validationBorder : Option Border) (validationError : Option ErrorMessage) :
    Except Failure Unit × InputValue :=
  InputValue.RuntimeClassInitialize renderContext
    ⟨validationBorder, validationError, .TimeInputValue adaptiveTimeInput uiTimePickerElement false⟩

/-- The method `ToggleInputValue::RuntimeClassInitialize`. -/
def ToggleInputValue.RuntimeClassInitialize (renderContext : AdaptiveRenderContext)
    (adaptiveToggleInput : AdaptiveToggleInput) (uiCheckBoxElement : CheckBox)
    (validationBorder : Option Border) (validationError : Option ErrorMessage) :
    Except Failure Unit × InputValue :=
  InputValue.RuntimeClassInitialize renderContext
    ⟨validationBorder, validationError, .ToggleInputValue adaptiveToggleInput uiCheckBoxElement false⟩

/-- The method `ChoiceSetInputValue::RuntimeClassInitialize`: the result of the call of the base
class is not tested, and `S_OK` is returned. -/
def ChoiceSetInputValue.RuntimeClassInitialize (renderContext : AdaptiveRenderContext)
    (adaptiveChoiceSetInput : AdaptiveChoiceSetInput) (uiChoiceSetElement : UIElement)
    (validationBorder : Option Border) (validationError : Option ErrorMessage) :
    Except Failure Unit × InputValue :=
  let r := InputValue.RuntimeClassInitialize renderContext
    ⟨validationBorder, validationError, .ChoiceSetInputValue adaptiveChoiceSetInput uiChoiceSetElement false⟩
  (.ok (), r.2)

/-! ## Events

The instance is driven by the callers of `Validate` and by the events of its controls.  A
handler added by the instance runs `Validate(nullptr)` and the event source drops the result. -/

/-- The flag `m_is...ChangedValidationEnabled` of the instance. -/
def InputValue.changedValidationEnabled (self : InputValue) : Bool :=
  match self.derived with
  | .TextInputValue _ _ enabled => enabled
  | .NumberInputValue _ _ enabled => enabled
  | .DateInputValue _ _ enabled => enabled
  | .TimeInputValue _ _ enabled => enabled
  | .ToggleInputValue _ _ enabled => enabled
  | .ChoiceSetInputValue _ _ enabled => enabled

/-- The number of handlers on the value-changed event of each control a value change can come
from: the bound control, or each choice control of a panel in rendering order. -/
def InputValue.valueChangedHandlers (self : InputValue) : List Nat :=
  match self.derived with
  | .TextInputValue _ box _ => [box.TextChanged]
  | .NumberInputValue _ box _ => [box.TextChanged]
  | .DateInputValue _ picker _ => [picker.DateChanged]
  | .TimeInputValue _ picker _ => [picker.TimeChanged]
  | .ToggleInputValue _ box _ => [box.Click]
  | .ChoiceSetInputValue _ (.selector selector) _ => [selector.SelectionChanged]
  | .ChoiceSetInputValue _ (.panel children _) _ => children.map (·.Click)

/-- The number of handlers on `LostFocus` of the bound control (`none`) or of the choice control
of a panel at an index. -/
def InputValue.lostFocusHandlers (self : InputValue) (child : Option Nat) : Nat :=
  match self.derived, child with
  | .TextInputValue _ box _, none => box.LostFocus
  | .NumberInputValue _ box _, none => box.LostFocus
  | .DateInputValue _ picker _, none => picker.LostFocus
  | .TimeInputValue _ picker _, none => picker.LostFocus
  | .ToggleInputValue _ box _, none => box.LostFocus
  | .ChoiceSetInputValue _ (.selector selector) _, none => selector.LostFocus
  | .ChoiceSetInputValue _ (.panel _ lostFocus) _, none => lostFocus
  | .ChoiceSetInputValue _ (.panel children _) _, some i =>
      match children[i]? with
      | some element => element.LostFocus
      | none => 0
  | _, some _ => 0

/-- What the user does to the bound control: the new value, and for a panel of choices the
index of the choice control that is clicked with the checked states that result. -/
inductive Edit where
  | Text (text : String)
  | Date (date : Option DateTime)
  | Time (time : Int)
  | IsChecked (isChecked : Bool)
  | SelectedIndex (selectedIndex : Int)
  | Choice (clicked : Nat) (isChecked : List Bool)
  deriving DecidableEq

/-- The choice controls with new checked states, in order; the handlers stay. -/
def setChecked : List CheckBox → List Bool → List CheckBox
  | [], _ => []
  | children, [] => children
  | element :: children, b :: bs => { element with IsChecked := b } :: setChecked children bs

/-- The control whose value-changed event an edit raises, as an index of `valueChangedHandlers`. -/
def Edit.target : Edit → Nat
  | .Choice clicked _ => clicked
  | _ => 0

/-- The instance after the control took the new value; an edit for a control of another class
changes nothing. -/
def InputValue.edit (self : InputValue) (e : Edit) : InputValue :=
  match self.derived, e with
  | .TextInputValue m box enabled, .Text text =>
      { self with derived := .TextInputValue m { box with Text := text } enabled }
  | .NumberInputValue m box enabled, .Text text =>
      { self with derived := .NumberInputValue m { box with Text := text } enabled }
  | .DateInputValue m picker enabled, .Date date =>
      { self with derived := .DateInputValue m { picker with Date := date } enabled }
  | .TimeInputValue m picker enabled, .Time time =>
      { self with derived := .TimeInputValue m { picker with Time := time } enabled }
  | .ToggleInputValue m box enabled, .IsChecked isChecked =>
      { self with derived := .ToggleInputValue m { box with IsChecked := isChecked } enabled }
  | .ChoiceSetInputValue m (.selector selector) enabled, .SelectedIndex selectedIndex =>
      { self with derived :=
          Derived.ChoiceSetInputValue m (.selector { selector with SelectedIndex := selectedIndex }) enabled }
  | .ChoiceSetInputValue m (.panel children lostFocus) enabled, .Choice _ isChecked =>
      { self with derived :=
          Derived.ChoiceSetInputValue m (.panel (setChecked children isChecked) lostFocus) enabled }
  | _, _ => self

/-- The instance after `n` handlers ran, one after the other. -/
def InputValue.raise (E : Externals) : Nat → InputValue → InputValue
  | 0, self => self
  | n + 1, self => raise E n (self.Validate E).2

/-- What happens to an instance. -/
inductive Event where
  /-- A caller (the form submission) runs `Validate`. -/
  | validate
  /-- The user edits the control, which raises its value-changed event. -/
  | valueChanged (e : Edit)
  /-- The bound control (`none`) or a choice control of the panel loses the focus. -/
  | lostFocus (child : Option Nat)
  deriving DecidableEq

/-- The number of runs of `Validate` an event makes, and the instance after it. -/
def InputValue.step (E : Externals) (self : InputValue) : Event → Nat × InputValue
  | .validate => (1, (self.Validate E).2)
  | .valueChanged e =>
      let edited := self.edit e
      let handlers := edited.valueChangedHandlers.getD e.target 0
      (handlers, edited.raise E handlers)
  | .lostFocus child =>
      let handlers := self.lostFocusHandlers child
      (handlers, self.raise E handlers)

/-- The instance after a sequence of events. -/
def InputValue.run (E : Externals) (self : InputValue) : List Event → InputValue
  | [] => self
  | event :: events => run E (self.step E event).2 events

/-! ## The toggle renderer (`AdaptiveToggleInputRenderer.cpp`) -/

/-- The ordinal comparison of two sequences of characters: the first place where they differ
decides, and a proper prefix comes first. -/
def compareOrdinal : List Char → List Char → Int
  | [], [] => 0
  | [], _ :: _ => -1
  | _ :: _, [] => 1
  | c1 :: rest1, c2 :: rest2 =>
      if c1 = c2 then compareOrdinal rest1 rest2 else if c1 < c2 then -1 else 1

/-- The call `WindowsCompareStringOrdinal`: negative, zero or positive.  The system compares the
UTF-16 code units and the model the characters, which agrees on the only thing the renderer uses,
whether the result is zero. -/
def WindowsCompareStringOrdinal (string1 string2 : String) : Int :=
  compareOrdinal string1.data string2.data

/-- Modelled from the spec: `XamlHelpers::SetToggleValue`, whose source is not part of these
files, writes "the control's checked boolean". -/
def XamlHelpers.SetToggleValue (item : CheckBox) (isChecked : Bool) : CheckBox :=
  { item with IsChecked := isChecked }

/-- An element as the renderer hands it around (`IUIElement`): the check box, the label that
`XamlHelpers::RenderInputLabel` yields (its source is not part of these files; only whether it
is null is used), and the stack panel with its two children in the order they are appended. -/
inductive IUIElement where
  /-- A check box. -/
  | checkBox (checkBox : CheckBox)
  /-- A rendered label. -/
  | label (text : String)
  /-- A stack panel holding a label and a check box. -/
  | stackPanel (labelControl : String) (checkBox : CheckBox)
  deriving DecidableEq

/-- The warnings the renderer adds to the render context. -/
inductive WarningStatusCode where
  /-- The host does not support interactivity. -/
  | InteractivityNotSupported
  deriving DecidableEq

/-- What a call of `AdaptiveToggleInputRenderer::Render` leaves behind. -/
structure Rendered where
  /-- The content of the slot `*toggleInputControl` after the call. -/
  toggleInputControl : Option IUIElement
  /-- The warnings added to the render context by `AddWarning`. -/
  warnings : List WarningStatusCode
  /-- The calls of `XamlHelpers::AddInputValueToContext` (its source is not part of these
  files): the card element and the element passed, from which the input value of the card
  element is made. -/
  inputValues : List (AdaptiveToggleInput × Option IUIElement)
  deriving DecidableEq

/-- The method `AdaptiveToggleInputRenderer::Render`.  The render context and the render
arguments enter through what is read of them: whether the host supports interactivity, and
the label `XamlHelpers::RenderInputLabel` yields (`none` is the null pointer).  The parameter
`toggleInputControl` is the content of the slot of the out-parameter when the call starts.
The title, the alignment, the style and the tapped handler of the check box are not part of
the model. -/
def AdaptiveToggleInputRenderer.Render (adaptiveCardElement : AdaptiveToggleInput)
    (supportsInteractivity : Bool) (renderedLabel : Option String)
    (toggleInputControl : Option IUIElement) : Except Failure Rendered :=
  if !supportsInteractivity then
    .ok { toggleInputControl := toggleInputControl, warnings := [.InteractivityNotSupported],
          inputValues := [] }
  else
    let adaptiveToggleInput := adaptiveCardElement
    let checkBox : CheckBox := { IsChecked := false, Click := 0, LostFocus := 0 }
    let value := adaptiveToggleInput.Value
    let valueOn := adaptiveToggleInput.ValueOn
    let compareValueOn := WindowsCompareStringOrdinal value valueOn
    let checkBox := XamlHelpers.SetToggleValue checkBox (compareValueOn == 0)
    let checkboxAsUIElement := IUIElement.checkBox checkBox
    -- line 79: the slot is read here, before line 99 or 103 writes it
    let inputValues := [(adaptiveCardElement, toggleInputControl)]
    match renderedLabel with
    | some labelControl =>
        .ok { toggleInputControl := some (.stackPanel labelControl checkBox), warnings := [],
              inputValues := inputValues }
    | none =>
        .ok { toggleInputControl := some checkboxAsUIElement, warnings := [],
              inputValues := inputValues }

/-! ## Notions of the statements -/

/-- The instance with the feedback of a validity written to the regions that are present. -/
def InputValue.withFeedback (self : InputValue) (isInputValid : Bool) : InputValue :=
  { self with
    m_validationBorder := self.m_validationBorder.map
      (fun _ => { BorderThickness := if isInputValid then ⟨0, 0, 0, 0⟩ else ⟨1, 1, 1, 1⟩ })
    m_validationError := self.m_validationError.map
      (fun _ => { Visibility := if isInputValid then .Collapsed else .Visible }) }

/-- The declared values of the choices whose controls are checked, in rendering order. -/
def checkedValues (choices : List AdaptiveChoiceInput) (children : List CheckBox) : List String :=
  ((children.zip choices).filter (fun p => p.1.IsChecked)).map (fun p => p.2.Value)

/-- The state `Lazy` of the spec: the flag is false and no value-changed handler was added. -/
def InputValue.Lazy (self : InputValue) : Prop :=
  self.changedValidationEnabled = false ∧ ∀ n ∈ self.valueChangedHandlers, n = 0

/-- The state `Eager` of the spec: the flag is true and each control a value change can come
from has exactly one value-changed handler. -/
def InputValue.Eager (self : InputValue) : Prop :=
  self.changedValidationEnabled = true ∧ ∀ n ∈ self.valueChangedHandlers, n = 1

/-- Whether an instance is lazy is decidable. -/
instance instDecidableLazy (self : InputValue) : Decidable self.Lazy := by
  unfold InputValue.Lazy; infer_instance

/-- Whether an instance is eager is decidable. -/
instance instDecidableEager (self : InputValue) : Decidable self.Eager := by
  unfold InputValue.Eager; infer_instance

/-- Whether the model declares no constraint of its kind: no pattern for a text input, the
bounds `-MAXINT32` and `MAXINT32` that stand for "not set" for a number input, no bound
for a time input. -/
def InputValue.declaresNoConstraint (self : InputValue) : Bool :=
  match self.derived with
  | .TextInputValue m _ _ => decide (m.Regex = "")
  | .NumberInputValue m _ _ => decide (m.Min = -MAXINT32) && decide (m.Max = MAXINT32)
  | .TimeInputValue m _ _ => decide (m.Min = "") && decide (m.Max = "")
  | _ => true

/-- A required text input with an empty box and both feedback regions, as rendered. -/
def Example.requiredText : InputValue :=
  ⟨some ⟨⟨0, 0, 0, 0⟩⟩, some ⟨.Collapsed⟩, .TextInputValue ⟨true, ""⟩ ⟨"", 0, 0⟩ false⟩

/-- A required multi-select choice set with three choices, none checked, as initialized with
inline validation. -/
def Example.requiredChoiceSet : InputValue :=
  (ChoiceSetInputValue.RuntimeClassInitialize ⟨true⟩ ⟨true, .Expanded, true, [⟨"a"⟩, ⟨"b"⟩, ⟨"c"⟩]⟩
    (.panel [⟨false, 0, 0⟩, ⟨false, 0, 0⟩, ⟨false, 0, 0⟩] 0) none none).2

/-- The value of an instance: what the validity check can read of it, that is, all of it but
the handlers, the flag and the feedback regions. -/
def InputValue.sameValue (self other : InputValue) : Prop :=
  match self.derived, other.derived with
  | .TextInputValue m box _, .TextInputValue m' box' _ => m = m' ∧ box.Text = box'.Text
  | .NumberInputValue m box _, .NumberInputValue m' box' _ => m = m' ∧ box.Text = box'.Text
  | .DateInputValue m picker _, .DateInputValue m' picker' _ => m = m' ∧ picker.Date = picker'.Date
  | .TimeInputValue m picker _, .TimeInputValue m' picker' _ => m = m' ∧ picker.Time = picker'.Time
  | .ToggleInputValue m box _, .ToggleInputValue m' box' _ => m = m' ∧ box.IsChecked = box'.IsChecked
  | .ChoiceSetInputValue m (.selector s) _, .ChoiceSetInputValue m' (.selector s') _ =>
      m = m' ∧ s.SelectedIndex = s'.SelectedIndex
  | .ChoiceSetInputValue m (.panel children _) _, .ChoiceSetInputValue m' (.panel children' _) _ =>
      m = m' ∧ children.map (·.IsChecked) = children'.map (·.IsChecked)
  | _, _ => False

/-- The text `HH:MM`: hours and minutes, each as two decimal digits. -/
def HHMM (hours minutes : Nat) : String :=
  String.mk [Nat.digitChar (hours / 10), Nat.digitChar (hours % 10), ':',
    Nat.digitChar (minutes / 10), Nat.digitChar (minutes % 10)]

/-- Whether the instance is a `TimeInputValue`. -/
def InputValue.isTimeInput (self : InputValue) : Bool :=
  match self.derived with
  | .TimeInputValue _ _ _ => true
  | _ => false

/-- Whether the focus-loss handler of the instance goes to the bound control itself: it does for
every instance but a choice set that is not both compact and single-select. -/
def InputValue.focusOnControl (self : InputValue) : Bool :=
  match self.derived with
  | .ChoiceSetInputValue m _ _ => decide (m.ChoiceSetStyle = .Compact ∧ m.IsMultiSelect = false)
  | _ => true

/-- A required text input with an empty box, as initialized with inline validation. -/
def Example.initializedText : InputValue :=
  (TextInputValue.RuntimeClassInitialize ⟨true⟩ ⟨true, ""⟩ ⟨"", 0, 0⟩ (some ⟨⟨0, 0, 0, 0⟩⟩)
    (some ⟨.Collapsed⟩)).2

/-! ## Theorems -/

/-- The required check on a text box: not required, or the text is not empty. -/
theorem InputValue.IsValueValid_text (border : Option Border) (error : Option ErrorMessage)
    (m : AdaptiveTextInput) (box : TextBox) (enabled : Bool) :
    InputValue.IsValueValid ⟨border, error, .TextInputValue m box enabled⟩
      = .ok (!m.IsRequired || decide (box.Text ≠ "")) := by
  cases h : m.IsRequired <;>
    simp [InputValue.IsValueValid, InputValue.get_IsRequired, InputValue.get_CurrentValue,
      TextInputBase.get_CurrentValue, HString.IsValid, h]

/-- The required check on the text box of a number input. -/
theorem InputValue.IsValueValid_number (border : Option Border) (error : Option ErrorMessage)
    (m : AdaptiveNumberInput) (box : TextBox) (enabled : Bool) :
    InputValue.IsValueValid ⟨border, error, .NumberInputValue m box enabled⟩
      = .ok (!m.IsRequired || decide (box.Text ≠ "")) := by
  cases h : m.IsRequired <;>
    simp [InputValue.IsValueValid, InputValue.get_IsRequired, InputValue.get_CurrentValue,
      TextInputBase.get_CurrentValue, HString.IsValid, h]

/-- The validity of a text input: the required check, and the whole-string match when a pattern is
declared and accepted; the exception of the constructor otherwise. -/
theorem TextInputValue.IsValueValid_text_eq (E : Externals) (border : Option Border) (error : Option ErrorMessage)
    (m : AdaptiveTextInput) (box : TextBox) (enabled : Bool) :
    TextInputValue.IsValueValid E ⟨border, error, .TextInputValue m box enabled⟩ m
      = (if m.Regex = "" then .ok (!m.IsRequired || decide (box.Text ≠ ""))
         else match E.regex m.Regex with
           | none => .error .regex_error
           | some pattern => .ok ((!m.IsRequired || decide (box.Text ≠ "")) && pattern box.Text)) := by
  unfold TextInputValue.IsValueValid
  rw [InputValue.IsValueValid_text]
  by_cases hr : m.Regex = ""
  · simp [HString.IsValid, hr]
  · simp only [HString.IsValid, hr, ne_eq, not_false_eq_true, decide_True, if_true, if_false]
    cases E.regex m.Regex <;> simp [InputValue.get_CurrentValue, TextInputBase.get_CurrentValue]

/-- The validity of a number input is the required check of the base class. -/
theorem NumberInputValue.IsValueValid_number_eq (E : Externals) (border : Option Border) (error : Option ErrorMessage)
    (m : AdaptiveNumberInput) (box : TextBox) (enabled : Bool) :
    NumberInputValue.IsValueValid E ⟨border, error, .NumberInputValue m box enabled⟩ m
      = InputValue.IsValueValid ⟨border, error, .NumberInputValue m box enabled⟩ := by
  unfold NumberInputValue.IsValueValid
  rw [InputValue.IsValueValid_number]
  simp only [InputValue.get_CurrentValue, TextInputBase.get_CurrentValue]
  split <;> rfl

/-- The bounds of a time input never change the validity: each test is joined by an inclusive
or to a flag that starts true. -/
theorem TimeInputValue.IsValueValid_time_eq (E : Externals) (self : InputValue) (m : AdaptiveTimeInput)
    (picker : TimePicker) : TimeInputValue.IsValueValid E self m picker = InputValue.IsValueValid self := by
  unfold TimeInputValue.IsValueValid
  cases InputValue.IsValueValid self with
  | error e => rfl
  | ok isBaseValid =>
      simp only [Bool.true_or]
      cases HString.IsValid m.Min <;> cases HString.IsValid m.Max <;>
        rcases E.TryParseSimpleTime m.Min with _ | ⟨minHours, minMinutes⟩ <;>
        rcases E.TryParseSimpleTime m.Max with _ | ⟨maxHours, maxMinutes⟩ <;> simp

/-- The method `SetValidation` writes the feedback and, for "not valid", adds the value-changed
handlers. -/
theorem InputValue.SetValidation_eq (self : InputValue) (isInputValid : Bool) :
    self.SetValidation isInputValid
      = if isInputValid then (.ok (), self.withFeedback true)
        else (self.withFeedback false).EnableValueChangedValidation := by
  obtain ⟨border, error, derived⟩ := self
  cases isInputValid <;> cases border <;> cases error <;>
    simp [InputValue.SetValidation, InputValue.withFeedback]

/-- The accessor does not read the feedback regions. -/
theorem InputValue.get_CurrentValue_withFeedback (self : InputValue) (b : Bool) :
    (self.withFeedback b).get_CurrentValue = self.get_CurrentValue := rfl

/-- When the accessor of a choice set returns, the handlers of its value changes can be added. -/
theorem ChoiceSetInputValue.EnableValueChangedValidation_ok_of_accessor (m : AdaptiveChoiceSetInput) (ui : UIElement)
    (enabled : Bool) (value : String) (h : ChoiceSetInputValue.get_CurrentValue m ui = .ok value) :
    (ChoiceSetInputValue.EnableValueChangedValidation m ui enabled).1 = .ok () := by
  unfold ChoiceSetInputValue.get_CurrentValue at h
  unfold ChoiceSetInputValue.EnableValueChangedValidation
  cases enabled
  · by_cases hc : m.ChoiceSetStyle = .Compact ∧ m.IsMultiSelect = false
    · simp only [Bool.not_false, if_true, if_pos hc] at h ⊢
      cases ui <;> simp_all
    · simp only [Bool.not_false, if_true, if_neg hc] at h ⊢
      cases ui <;> simp_all
  · simp

/-- The base check returns only when the accessor returned, or the input is not required. -/
theorem InputValue.IsValueValid_ok_false (self : InputValue) (h : InputValue.IsValueValid self = .ok false) :
    self.get_IsRequired = true ∧ self.get_CurrentValue = .ok "" := by
  unfold InputValue.IsValueValid at h
  cases hr : self.get_IsRequired
  · simp [hr] at h
  · simp only [hr, if_true] at h
    cases hv : self.get_CurrentValue with
    | error e => simp [hv] at h
    | ok value =>
        simp only [hv, HString.IsValid, Except.ok.injEq, decide_eq_false_iff_not, ne_eq, not_not] at h
        simp [h]

/-- When the validity is computed and is false, the handlers of the value changes can be added. -/
theorem InputValue.EnableValueChangedValidation_ok (E : Externals) (self : InputValue) (b : Bool)
    (h : self.virtual_IsValueValid E = .ok false) :
    ((self.withFeedback b).EnableValueChangedValidation).1 = .ok () := by
  obtain ⟨border, error, derived⟩ := self
  cases derived with
  | ChoiceSetInputValue m ui enabled =>
      have h2 := InputValue.IsValueValid_ok_false _ h
      exact ChoiceSetInputValue.EnableValueChangedValidation_ok_of_accessor m ui enabled "" h2.2
  | TextInputValue m box enabled =>
      cases enabled <;> simp [InputValue.EnableValueChangedValidation, InputValue.withFeedback,
        TextInputBase.EnableValueChangedValidation]
  | NumberInputValue m box enabled =>
      cases enabled <;> simp [InputValue.EnableValueChangedValidation, InputValue.withFeedback,
        TextInputBase.EnableValueChangedValidation]
  | DateInputValue m box enabled =>
      cases enabled <;> simp [InputValue.EnableValueChangedValidation, InputValue.withFeedback,
        DateInputValue.EnableValueChangedValidation]
  | TimeInputValue m box enabled =>
      cases enabled <;> simp [InputValue.EnableValueChangedValidation, InputValue.withFeedback,
        TimeInputValue.EnableValueChangedValidation]
  | ToggleInputValue m box enabled =>
      cases enabled <;> simp [InputValue.EnableValueChangedValidation, InputValue.withFeedback,
        ToggleInputValue.EnableValueChangedValidation]

/-- The three outcomes of `Validate`. -/
theorem InputValue.Validate_eq (E : Externals) (self : InputValue) :
    self.Validate E =
      match self.virtual_IsValueValid E with
      | .error e => (.error e, self)
      | .ok true => (.ok true, self.withFeedback true)
      | .ok false => (.ok false, ((self.withFeedback false).EnableValueChangedValidation).2) := by
  unfold InputValue.Validate
  cases h : self.virtual_IsValueValid E with
  | error e => rfl
  | ok isValid =>
      cases isValid with
      | true => simp [InputValue.SetValidation_eq]
      | false =>
          have h2 := InputValue.EnableValueChangedValidation_ok E self false h
          simp only [InputValue.SetValidation_eq, Bool.false_eq_true, if_false]
          generalize (self.withFeedback false).EnableValueChangedValidation = r at h2
          obtain ⟨r1, r2⟩ := r
          simp only at h2
          subst h2
          rfl

/-- Adding the value-changed handlers leaves the feedback regions as they are. -/
theorem InputValue.EnableValueChangedValidation_regions (self : InputValue) :
    (self.EnableValueChangedValidation).2.m_validationBorder = self.m_validationBorder ∧
    (self.EnableValueChangedValidation).2.m_validationError = self.m_validationError := by
  obtain ⟨border, error, derived⟩ := self
  cases derived <;> exact ⟨rfl, rfl⟩

/-- An edit leaves the feedback regions as they are. -/
theorem InputValue.edit_regions (self : InputValue) (e : Edit) :
    (self.edit e).m_validationBorder = self.m_validationBorder ∧
    (self.edit e).m_validationError = self.m_validationError := by
  obtain ⟨border, error, derived⟩ := self
  cases derived with
  | ChoiceSetInputValue m ui enabled => cases ui <;> cases e <;> exact ⟨rfl, rfl⟩
  | _ => cases e <;> exact ⟨rfl, rfl⟩

/-- What `Validate` leaves in the feedback regions when it returns a validity. -/
theorem InputValue.Validate_regions (E : Externals) (self : InputValue) (isValid : Bool)
    (h : (self.Validate E).1 = .ok isValid) :
    (self.Validate E).2.m_validationBorder = (self.withFeedback isValid).m_validationBorder ∧
    (self.Validate E).2.m_validationError = (self.withFeedback isValid).m_validationError := by
  rw [InputValue.Validate_eq] at h ⊢
  cases hv : self.virtual_IsValueValid E with
  | error e => simp [hv] at h
  | ok v =>
      cases v with
      | true =>
          simp only [hv, Except.ok.injEq] at h ⊢
          subst h
          exact ⟨rfl, rfl⟩
      | false =>
          simp only [hv, Except.ok.injEq] at h ⊢
          subst h
          exact InputValue.EnableValueChangedValidation_regions _

/-- No call of `Validate` adds or removes a feedback region. -/
theorem InputValue.Validate_presence (E : Externals) (self : InputValue) :
    (self.Validate E).2.m_validationBorder.isSome = self.m_validationBorder.isSome ∧
    (self.Validate E).2.m_validationError.isSome = self.m_validationError.isSome := by
  rw [InputValue.Validate_eq]
  cases hv : self.virtual_IsValueValid E with
  | error e => exact ⟨rfl, rfl⟩
  | ok v =>
      cases v with
      | true => simp [InputValue.withFeedback]
      | false =>
          have := InputValue.EnableValueChangedValidation_regions (self.withFeedback false)
          simp only [this.1, this.2]
          simp [InputValue.withFeedback]

/-- No run of handlers adds or removes a feedback region. -/
theorem InputValue.raise_presence (E : Externals) (n : Nat) (self : InputValue) :
    (self.raise E n).m_validationBorder.isSome = self.m_validationBorder.isSome ∧
    (self.raise E n).m_validationError.isSome = self.m_validationError.isSome := by
  induction n generalizing self with
  | zero => exact ⟨rfl, rfl⟩
  | succ n ih =>
      have h1 := ih (self.Validate E).2
      have h2 := InputValue.Validate_presence E self
      simp only [InputValue.raise]
      exact ⟨h1.1.trans h2.1, h1.2.trans h2.2⟩

/-- No event adds or removes a feedback region. -/
theorem InputValue.step_presence (E : Externals) (self : InputValue) (event : Event) :
    (self.step E event).2.m_validationBorder.isSome = self.m_validationBorder.isSome ∧
    (self.step E event).2.m_validationError.isSome = self.m_validationError.isSome := by
  cases event with
  | validate => exact InputValue.Validate_presence E self
  | valueChanged e =>
      have h1 := InputValue.raise_presence E ((self.edit e).valueChangedHandlers.getD e.target 0) (self.edit e)
      have h2 := InputValue.edit_regions self e
      simp only [InputValue.step]
      rw [h1.1, h1.2, h2.1, h2.2]
      exact ⟨rfl, rfl⟩
  | lostFocus child => exact InputValue.raise_presence E _ self

/-- No sequence of events adds or removes a feedback region. -/
theorem InputValue.run_presence (E : Externals) (events : List Event) (self : InputValue) :
    (self.run E events).m_validationBorder.isSome = self.m_validationBorder.isSome ∧
    (self.run E events).m_validationError.isSome = self.m_validationError.isSome := by
  induction events generalizing self with
  | nil => exact ⟨rfl, rfl⟩
  | cons event events ih =>
      have h1 := ih (self.step E event).2
      have h2 := InputValue.step_presence E self event
      simp only [InputValue.run]
      exact ⟨h1.1.trans h2.1, h1.2.trans h2.2⟩

/-- A constant map over an option depends on the presence only. -/
theorem map_const_of_isSome {α β : Type} (a b : Option α) (x : β) (h : a.isSome = b.isSome) :
    a.map (fun _ => x) = b.map (fun _ => x) := by
  cases a <;> cases b <;> simp_all

/-- Claim C9: after every call of `Validate` that returns a validity, whatever happened before
(`events`), each feedback region that is present is a function of that validity
alone: the border has thickness 0 on the four sides and the error message is collapsed when it is
true, the border has thickness 1 on the four sides and the error message is visible when it is
false; a region that is absent stays absent. -/
theorem C9_feedback_follows_validity (E : Externals) (self : InputValue) (events : List Event)
    (isValid : Bool) (h : ((self.run E events).Validate E).1 = .ok isValid) :
    ((self.run E events).Validate E).2.m_validationBorder
      = self.m_validationBorder.map
          (fun _ => { BorderThickness := if isValid then ⟨0, 0, 0, 0⟩ else ⟨1, 1, 1, 1⟩ }) ∧
    ((self.run E events).Validate E).2.m_validationError
      = self.m_validationError.map (fun _ => { Visibility := if isValid then .Collapsed else .Visible }) := by
  have h1 := InputValue.Validate_regions E (self.run E events) isValid h
  have h2 := InputValue.run_presence E events self
  rw [h1.1, h1.2]
  exact ⟨map_const_of_isSome _ _ _ h2.1, map_const_of_isSome _ _ _ h2.2⟩

/-- The characters of the accumulating loop of `String.intercalate`. -/
theorem intercalate_go_data (sep : String) (l : List String) (acc : String) :
    (String.intercalate.go acc sep l).data = acc.data ++ (l.map (fun a => sep.data ++ a.data)).flatten := by
  induction l generalizing acc with
  | nil => simp [String.intercalate.go]
  | cons a l ih => simp [String.intercalate.go, ih, List.append_assoc]

/-- The characters of strings joined by a separator. -/
theorem intercalate_data (sep : String) (a : String) (l : List String) :
    (sep.intercalate (a :: l)).data = a.data ++ (l.map (fun b => sep.data ++ b.data)).flatten := by
  simp [String.intercalate, intercalate_go_data]

/-- Dropping the last terminator of terminated blocks leaves the blocks separated. -/
theorem dropLast_flatten_terminated {α : Type} (c : α) (l : List (List α)) (x : List α) :
    (x ++ [c] ++ (l.map (fun b => b ++ [c])).flatten).dropLast
      = x ++ (l.map (fun b => [c] ++ b)).flatten := by
  induction l generalizing x with
  | nil => simp
  | cons b l ih =>
      have := ih (x ++ [c] ++ b)
      simp only [List.map_cons, List.flatten_cons, List.append_assoc] at this ⊢
      exact this

/-- Removing the last separator of the terminated values gives the separated values. -/
theorem strip_last_comma (l : List String) :
    let s : String := ⟨(l.map (fun v => v.data ++ [','])).flatten⟩
    (if s ≠ "" then substr0 s (s.length - 1) else s) = ",".intercalate l := by
  cases l with
  | nil => simp [String.intercalate]
  | cons a l =>
      have hne : (⟨((a :: l).map (fun v => v.data ++ [','])).flatten⟩ : String) ≠ "" := by
        intro h
        have := congrArg String.data h
        simp at this
      simp only [hne, ne_eq, not_false_eq_true, if_true]
      apply String.ext
      rw [intercalate_data]
      simp only [substr0, String.length]
      rw [← List.dropLast_eq_take]
      have := dropLast_flatten_terminated ',' (l.map String.data) a.data
      simp only [List.map_map, List.append_assoc] at this
      simpa [Function.comp_def] using this

/-- The checked values, one control and one choice at a time. -/
theorem checkedValues_cons (a : AdaptiveChoiceInput) (choices : List AdaptiveChoiceInput) (c : CheckBox)
    (rest : List CheckBox) :
    checkedValues (a :: choices) (c :: rest)
      = if c.IsChecked then a.Value :: checkedValues choices rest else checkedValues choices rest := by
  cases h : c.IsChecked <;> simp [checkedValues, h]

/-- The call `GetAt` at an index inside the vector. -/
theorem IVector.GetAt_ofNat {α : Type} (v : List α) (i : Nat) (x : α) (h : v[i]? = some x) :
    IVector.GetAt v (i : Int) = .ok x := by
  have : ¬ ((i : Int) < 0) := by omega
  simp [IVector.GetAt, this, h]

/-- The declared value of the choice at an index inside the choices. -/
theorem ChoiceSetInputValue.GetChoiceValue_ofNat (m : AdaptiveChoiceSetInput) (i : Nat)
    (choice : AdaptiveChoiceInput) (h : m.Choices[i]? = some choice) :
    ChoiceSetInputValue.GetChoiceValue m (i : Int) = .ok choice.Value := by
  have : ¬ ((i : Int) = -1) := by omega
  simp [ChoiceSetInputValue.GetChoiceValue, this, IVector.GetAt_ofNat _ _ _ h]

/-- The multi-select loop, when no child lies past the choices: the text gathered so far, then
each checked value followed by a comma. -/
theorem ChoiceSetInputValue.multiSelectLoop_eq (m : AdaptiveChoiceSetInput) (children : List CheckBox)
    (i : Nat) (acc : String) (h : children.length + i ≤ m.Choices.length) :
    ChoiceSetInputValue.multiSelectLoop m children i acc
      = .ok ⟨acc.data ++ ((checkedValues (m.Choices.drop i) children).map (fun v => v.data ++ [','])).flatten⟩ := by
  induction children generalizing i acc with
  | nil => simp [ChoiceSetInputValue.multiSelectLoop, checkedValues]
  | cons c rest ih =>
      have hi : i < m.Choices.length := by simp only [List.length_cons] at h; omega
      have hdrop : m.Choices.drop i = m.Choices[i] :: m.Choices.drop (i + 1) := by
        rw [List.drop_eq_getElem_cons hi]
      have hget : m.Choices[i]? = some m.Choices[i] := by simp [hi]
      have hrest : rest.length + (i + 1) ≤ m.Choices.length := by simp only [List.length_cons] at h; omega
      unfold ChoiceSetInputValue.multiSelectLoop
      cases hc : c.IsChecked
      · simp only [XamlHelpers.GetToggleValue, hc, Bool.false_eq_true, if_false]
        rw [ih (i + 1) acc hrest, hdrop, checkedValues_cons, hc]
        rfl
      · simp only [XamlHelpers.GetToggleValue, hc, if_true]
        rw [ChoiceSetInputValue.GetChoiceValue_ofNat m i _ hget]
        simp only
        rw [ih (i + 1) _ hrest, hdrop, checkedValues_cons, hc]
        simp [List.append_assoc]

/-- The accessor of a multi-select choice set bound to a panel with no child past the choices. -/
theorem ChoiceSetInputValue.get_CurrentValue_multiSelect (m : AdaptiveChoiceSetInput)
    (children : List CheckBox) (lostFocus : Nat) (hmulti : m.IsMultiSelect = true)
    (h : children.length ≤ m.Choices.length) :
    ChoiceSetInputValue.get_CurrentValue m (.panel children lostFocus)
      = .ok (",".intercalate (checkedValues m.Choices children)) := by
  have hloop : ChoiceSetInputValue.multiSelectLoop m children 0 ""
      = .ok ⟨((checkedValues m.Choices children).map (fun v => v.data ++ [','])).flatten⟩ := by
    have := ChoiceSetInputValue.multiSelectLoop_eq m children 0 "" (by simpa using h)
    simpa using this
  have hstrip := strip_last_comma (checkedValues m.Choices children)
  unfold ChoiceSetInputValue.get_CurrentValue
  simp only [hmulti, Bool.true_eq_false, and_false, if_false, if_true, hloop]
  simp only at hstrip
  split
  · rename_i hne
    rw [if_pos hne] at hstrip
    rw [hstrip]
  · rename_i hne
    rw [if_neg hne] at hstrip
    rw [hstrip]

/-- The declared value of a choice whose control is checked is one of the checked values. -/
theorem mem_checkedValues (choices : List AdaptiveChoiceInput) (children : List CheckBox) (i : Nat)
    (c : CheckBox) (choice : AdaptiveChoiceInput) (hc : children[i]? = some c) (hchecked : c.IsChecked = true)
    (hchoice : choices[i]? = some choice) : choice.Value ∈ checkedValues choices children := by
  have hz : (children.zip choices)[i]? = some (c, choice) := by
    rw [List.getElem?_zip_eq_some]
    exact ⟨hc, hchoice⟩
  have hmem : (c, choice) ∈ children.zip choices := List.getElem?_mem hz
  unfold checkedValues
  rw [List.mem_map]
  exact ⟨(c, choice), List.mem_filter.mpr ⟨hmem, by simpa using hchecked⟩, rfl⟩

/-- Values joined by commas are not the empty string when one of them is not. -/
theorem intercalate_ne_empty (l : List String) (v : String) (hv : v ∈ l) (hne : v ≠ "") :
    ",".intercalate l ≠ "" := by
  intro h
  cases l with
  | nil => simp at hv
  | cons a l =>
      have hd := congrArg String.data h
      rw [intercalate_data] at hd
      have he : ("" : String).data = [] := rfl
      rw [he, List.append_eq_nil] at hd
      rcases List.mem_cons.mp hv with rfl | hl
      · exact hne (String.ext hd.1)
      · cases l with
        | nil => simp at hl
        | cons b l => simp at hd

/-- The outcome of `Validate` is the outcome of the validity check. -/
theorem InputValue.Validate_fst (E : Externals) (self : InputValue) :
    (self.Validate E).1 = self.virtual_IsValueValid E := by
  rw [InputValue.Validate_eq]
  cases self.virtual_IsValueValid E with
  | error e => rfl
  | ok v => cases v <;> rfl

/-- Claim C5 as amended: for every required multi-select choice set bound to a panel with no
more children than the model has choices, `Validate` returns true exactly when the checked
values joined by commas are not the empty string; in particular it returns true when some
checked choice control has a declared value that is not empty. -/
theorem C5_required_multiSelect (E : Externals) (border : Option Border) (error : Option ErrorMessage)
    (m : AdaptiveChoiceSetInput) (children : List CheckBox) (lostFocus : Nat) (enabled : Bool)
    (hreq : m.IsRequired = true) (hmulti : m.IsMultiSelect = true)
    (hlen : children.length ≤ m.Choices.length) :
    (InputValue.Validate E ⟨border, error, .ChoiceSetInputValue m (.panel children lostFocus) enabled⟩).1
        = .ok (decide (",".intercalate (checkedValues m.Choices children) ≠ "")) ∧
    ∀ (i : Nat) (c : CheckBox) (choice : AdaptiveChoiceInput), children[i]? = some c → c.IsChecked = true →
      m.Choices[i]? = some choice → choice.Value ≠ "" →
      (InputValue.Validate E ⟨border, error, .ChoiceSetInputValue m (.panel children lostFocus) enabled⟩).1
        = .ok true := by
  have hv : (InputValue.Validate E ⟨border, error, .ChoiceSetInputValue m (.panel children lostFocus) enabled⟩).1
        = .ok (decide (",".intercalate (checkedValues m.Choices children) ≠ "")) := by
    rw [InputValue.Validate_fst]
    simp only [InputValue.virtual_IsValueValid, InputValue.IsValueValid, InputValue.get_IsRequired, hreq,
      if_true, InputValue.get_CurrentValue,
      ChoiceSetInputValue.get_CurrentValue_multiSelect m children lostFocus hmulti hlen, HString.IsValid]
  refine ⟨hv, ?_⟩
  intro i c choice hc hchecked hchoice hvalue
  rw [hv]
  have := intercalate_ne_empty _ _ (mem_checkedValues m.Choices children i c choice hc hchecked hchoice) hvalue
  simp [this]

/-- Claim C6: for every multi-select choice set whose panel has as many children as the model
has choices, the accessor returns the declared values of the checked controls, in rendering
order, joined by single commas with no separator at the end; it is the empty string when no
control is checked. -/
theorem C6_multiSelect_accessor (m : AdaptiveChoiceSetInput) (children : List CheckBox) (lostFocus : Nat)
    (hmulti : m.IsMultiSelect = true) (hlen : children.length = m.Choices.length) :
    ChoiceSetInputValue.get_CurrentValue m (.panel children lostFocus)
        = .ok (",".intercalate (checkedValues m.Choices children)) ∧
    ((∀ c ∈ children, c.IsChecked = false) →
      ChoiceSetInputValue.get_CurrentValue m (.panel children lostFocus) = .ok "") := by
  have h := ChoiceSetInputValue.get_CurrentValue_multiSelect m children lostFocus hmulti (le_of_eq hlen)
  refine ⟨h, ?_⟩
  intro hnone
  have hnil : checkedValues m.Choices children = [] := by
    unfold checkedValues
    rw [List.map_eq_nil_iff, List.filter_eq_nil_iff]
    intro p hp
    have := hnone p.1 (List.of_mem_zip hp).1
    simp [this]
  rw [h, hnil]
  rfl

/-- Once the flag is set, `EnableValueChangedValidation` changes nothing. -/
theorem InputValue.EnableValueChangedValidation_of_enabled (self : InputValue)
    (h : self.changedValidationEnabled = true) : self.EnableValueChangedValidation = (.ok (), self) := by
  obtain ⟨border, error, derived⟩ := self
  cases derived <;> simp only [InputValue.changedValidationEnabled] at h <;> subst h <;> rfl

/-- On a lazy instance a successful `EnableValueChangedValidation` adds one handler to each
control and sets the flag. -/
theorem InputValue.EnableValueChangedValidation_of_lazy (self : InputValue) (h : self.Lazy)
    (hok : (self.EnableValueChangedValidation).1 = .ok ()) : (self.EnableValueChangedValidation).2.Eager := by
  obtain ⟨border, error, derived⟩ := self
  obtain ⟨hflag, hzero⟩ := h
  cases derived with
  | ChoiceSetInputValue m ui enabled =>
      simp only [InputValue.changedValidationEnabled] at hflag
      subst hflag
      simp only [InputValue.EnableValueChangedValidation, ChoiceSetInputValue.EnableValueChangedValidation,
        Bool.not_false, if_true] at hok ⊢
      by_cases hc : m.ChoiceSetStyle = .Compact ∧ m.IsMultiSelect = false
      · rw [if_pos hc] at hok ⊢
        cases ui with
        | panel children lostFocus => simp at hok
        | selector s =>
            simp only [InputValue.valueChangedHandlers, List.mem_singleton, forall_eq] at hzero
            simp [InputValue.Eager, InputValue.changedValidationEnabled, InputValue.valueChangedHandlers, hzero]
      · rw [if_neg hc] at hok ⊢
        cases ui with
        | selector s => simp at hok
        | panel children lostFocus =>
            simp only [InputValue.valueChangedHandlers, List.mem_map, forall_exists_index, and_imp,
              forall_apply_eq_imp_iff₂] at hzero
            simp only [InputValue.Eager, InputValue.changedValidationEnabled, InputValue.valueChangedHandlers,
              List.map_map, List.mem_map, Function.comp_apply, forall_exists_index, and_imp,
              forall_apply_eq_imp_iff₂, true_and]
            intro c hc
            simp [CheckBox.add_Click, hzero c hc]
  | _ =>
      simp only [InputValue.changedValidationEnabled] at hflag
      subst hflag
      simp only [InputValue.valueChangedHandlers, List.mem_singleton, forall_eq] at hzero
      simp [InputValue.Eager, InputValue.changedValidationEnabled, InputValue.valueChangedHandlers,
        InputValue.EnableValueChangedValidation, TextInputBase.EnableValueChangedValidation,
        DateInputValue.EnableValueChangedValidation, TimeInputValue.EnableValueChangedValidation,
        ToggleInputValue.EnableValueChangedValidation, hzero]

/-- A call of `Validate` keeps an eager instance eager. -/
theorem InputValue.Validate_eager (E : Externals) (self : InputValue) (h : self.Eager) :
    (self.Validate E).2.Eager := by
  rw [InputValue.Validate_eq]
  cases hv : self.virtual_IsValueValid E with
  | error e => exact h
  | ok v =>
      cases v with
      | true => exact h
      | false =>
          have hf : (self.withFeedback false).changedValidationEnabled = true := h.1
          simp only [InputValue.EnableValueChangedValidation_of_enabled _ hf]
          exact h

/-- A call of `Validate` on a lazy instance: if it returns false the instance is eager after it,
and in every case it is lazy or eager after it. -/
theorem InputValue.Validate_lazy (E : Externals) (self : InputValue) (h : self.Lazy) :
    ((self.Validate E).1 = .ok false → (self.Validate E).2.Eager) ∧
    ((self.Validate E).2.Lazy ∨ (self.Validate E).2.Eager) := by
  rw [InputValue.Validate_eq]
  cases hv : self.virtual_IsValueValid E with
  | error e => exact ⟨by simp, Or.inl h⟩
  | ok v =>
      cases v with
      | true => exact ⟨by simp, Or.inl h⟩
      | false =>
          have hok := InputValue.EnableValueChangedValidation_ok E self false hv
          have := InputValue.EnableValueChangedValidation_of_lazy (self.withFeedback false) h hok
          exact ⟨fun _ => this, Or.inr this⟩

/-- A call of `Validate` that returns false leaves a lazy or eager instance eager. -/
theorem InputValue.Validate_false_eager (E : Externals) (self : InputValue) (h : self.Lazy ∨ self.Eager)
    (hv : (self.Validate E).1 = .ok false) : (self.Validate E).2.Eager := by
  rcases h with h | h
  · exact (InputValue.Validate_lazy E self h).1 hv
  · exact InputValue.Validate_eager E self h

/-- A call of `Validate` leaves a lazy or eager instance lazy or eager. -/
theorem InputValue.Validate_inv (E : Externals) (self : InputValue) (h : self.Lazy ∨ self.Eager) :
    (self.Validate E).2.Lazy ∨ (self.Validate E).2.Eager := by
  rcases h with h | h
  · exact (InputValue.Validate_lazy E self h).2
  · exact Or.inr (InputValue.Validate_eager E self h)

/-- New checked states keep the click handlers. -/
theorem setChecked_map_Click (children : List CheckBox) (states : List Bool) :
    (setChecked children states).map (·.Click) = children.map (·.Click) := by
  induction children generalizing states with
  | nil => simp [setChecked]
  | cons c rest ih =>
      cases states with
      | nil => simp [setChecked]
      | cons b bs => simp [setChecked, ih]

/-- An edit changes neither the flag nor the handlers. -/
theorem InputValue.edit_handlers (self : InputValue) (e : Edit) :
    (self.edit e).changedValidationEnabled = self.changedValidationEnabled ∧
    (self.edit e).valueChangedHandlers = self.valueChangedHandlers := by
  obtain ⟨border, error, derived⟩ := self
  cases derived with
  | ChoiceSetInputValue m ui enabled =>
      cases ui <;> cases e <;>
        simp [InputValue.edit, InputValue.changedValidationEnabled, InputValue.valueChangedHandlers,
          setChecked_map_Click]
  | _ => cases e <;> exact ⟨rfl, rfl⟩

/-- Handlers keep an eager instance eager. -/
theorem InputValue.raise_eager (E : Externals) (n : Nat) (self : InputValue) (h : self.Eager) :
    (self.raise E n).Eager := by
  induction n generalizing self with
  | zero => exact h
  | succ n ih => exact ih _ (InputValue.Validate_eager E self h)

/-- Handlers keep a lazy or eager instance lazy or eager. -/
theorem InputValue.raise_inv (E : Externals) (n : Nat) (self : InputValue) (h : self.Lazy ∨ self.Eager) :
    (self.raise E n).Lazy ∨ (self.raise E n).Eager := by
  induction n generalizing self with
  | zero => exact h
  | succ n ih => exact ih _ (InputValue.Validate_inv E self h)

/-- An edit keeps an eager instance eager. -/
theorem InputValue.edit_eager (self : InputValue) (e : Edit) (h : self.Eager) : (self.edit e).Eager := by
  have := InputValue.edit_handlers self e
  exact ⟨this.1.trans h.1, by rw [this.2]; exact h.2⟩

/-- An edit keeps a lazy instance lazy. -/
theorem InputValue.edit_lazy (self : InputValue) (e : Edit) (h : self.Lazy) : (self.edit e).Lazy := by
  have := InputValue.edit_handlers self e
  exact ⟨this.1.trans h.1, by rw [this.2]; exact h.2⟩

/-- An event keeps an eager instance eager. -/
theorem InputValue.step_eager (E : Externals) (self : InputValue) (event : Event) (h : self.Eager) :
    (self.step E event).2.Eager := by
  cases event with
  | validate => exact InputValue.Validate_eager E self h
  | valueChanged e => exact InputValue.raise_eager E _ _ (InputValue.edit_eager self e h)
  | lostFocus child => exact InputValue.raise_eager E _ _ h

/-- An event keeps a lazy or eager instance lazy or eager. -/
theorem InputValue.step_inv (E : Externals) (self : InputValue) (event : Event) (h : self.Lazy ∨ self.Eager) :
    (self.step E event).2.Lazy ∨ (self.step E event).2.Eager := by
  cases event with
  | validate => exact InputValue.Validate_inv E self h
  | valueChanged e =>
      exact InputValue.raise_inv E _ _ (h.imp (InputValue.edit_lazy self e) (InputValue.edit_eager self e))
  | lostFocus child => exact InputValue.raise_inv E _ _ h

/-- A sequence of events keeps an eager instance eager. -/
theorem InputValue.run_eager (E : Externals) (events : List Event) (self : InputValue) (h : self.Eager) :
    (self.run E events).Eager := by
  induction events generalizing self with
  | nil => exact h
  | cons event events ih => exact ih _ (InputValue.step_eager E self event h)

/-- A sequence of events keeps a lazy or eager instance lazy or eager. -/
theorem InputValue.run_inv (E : Externals) (events : List Event) (self : InputValue)
    (h : self.Lazy ∨ self.Eager) : (self.run E events).Lazy ∨ (self.run E events).Eager := by
  induction events generalizing self with
  | nil => exact h
  | cons event events ih => exact ih _ (InputValue.step_inv E self event h)

/-- Claim C10: from an instance that has added no value-changed handler, after every sequence
of calls of `Validate`, edits and losses of focus, each control a value change can come from
carries at most one value-changed handler of the instance; and once `Validate` has returned
false, whatever follows (failing validations included), each of them carries exactly one, so
that one value change runs `Validate` exactly once. -/
theorem C10_value_changed_handler_added_once (E : Externals) (self : InputValue) (hlazy : self.Lazy)
    (events : List Event) :
    (∀ n ∈ (self.run E events).valueChangedHandlers, n ≤ 1) ∧
    (((self.run E events).Validate E).1 = .ok false →
      ∀ later : List Event,
        (∀ n ∈ (((self.run E events).Validate E).2.run E later).valueChangedHandlers, n = 1) ∧
        ∀ e : Edit, e.target < (((self.run E events).Validate E).2.run E later).valueChangedHandlers.length →
          ((((self.run E events).Validate E).2.run E later).step E (.valueChanged e)).1 = 1) := by
  have hinv := InputValue.run_inv E events self (Or.inl hlazy)
  constructor
  · intro n hn
    rcases hinv with h | h
    · rw [h.2 n hn]; exact Nat.zero_le 1
    · rw [h.2 n hn]
  · intro hfalse later
    have heager := InputValue.run_eager E later _ (InputValue.Validate_false_eager E _ hinv hfalse)
    refine ⟨heager.2, ?_⟩
    intro e he
    simp only [InputValue.step]
    rw [(InputValue.edit_handlers _ e).2]
    rw [List.getD_eq_getElem _ _ he]
    exact heager.2 _ (List.getElem_mem he)

/-- The required check on a date picker: not required, or a date is picked and its text is not empty. -/
theorem InputValue.IsValueValid_date_none (border : Option Border) (error : Option ErrorMessage)
    (m : AdaptiveDateInput) (picker : CalendarDatePicker) (enabled : Bool) (h : picker.Date = none) :
    InputValue.IsValueValid ⟨border, error, .DateInputValue m picker enabled⟩ = .ok (!m.IsRequired) := by
  cases hr : m.IsRequired <;>
    simp [InputValue.IsValueValid, InputValue.get_IsRequired, InputValue.get_CurrentValue,
      DateInputValue.get_CurrentValue, HString.IsValid, h, hr]

/-- When the validity is computed and is false, `Validate` returns false, sets the flag, and
leaves a lazy or eager instance eager. -/
theorem InputValue.Validate_of_invalid (E : Externals) (self : InputValue)
    (h : self.virtual_IsValueValid E = .ok false) :
    (self.Validate E).1 = .ok false ∧ (self.Validate E).2.changedValidationEnabled = true ∧
    (self.Lazy ∨ self.Eager → (self.Validate E).2.Eager) := by
  have h1 : (self.Validate E).1 = .ok false := by rw [InputValue.Validate_fst, h]
  refine ⟨h1, ?_, fun hinv => InputValue.Validate_false_eager E self hinv h1⟩
  rw [InputValue.Validate_eq, h]
  have hok := InputValue.EnableValueChangedValidation_ok E self false h
  obtain ⟨border, error, derived⟩ := self
  simp only [InputValue.withFeedback] at hok ⊢
  cases derived with
  | ChoiceSetInputValue m ui enabled =>
      cases enabled
      · simp only [InputValue.EnableValueChangedValidation, ChoiceSetInputValue.EnableValueChangedValidation,
          Bool.not_false, if_true] at hok ⊢
        by_cases hc : m.ChoiceSetStyle = .Compact ∧ m.IsMultiSelect = false
        · rw [if_pos hc] at hok ⊢
          cases ui <;> simp_all [InputValue.changedValidationEnabled]
        · rw [if_neg hc] at hok ⊢
          cases ui <;> simp_all [InputValue.changedValidationEnabled]
      · rfl
  | TextInputValue m box enabled => cases enabled <;> rfl
  | NumberInputValue m box enabled => cases enabled <;> rfl
  | DateInputValue m box enabled => cases enabled <;> rfl
  | TimeInputValue m box enabled => cases enabled <;> rfl
  | ToggleInputValue m box enabled => cases enabled <;> rfl

/-- A required text, number or date input whose value is empty is invalid and becomes eager;
for a text input, provided the pattern is absent or is one `std::regex` accepts. -/
theorem InputValue.Validate_required_empty (E : Externals) (border : Option Border)
    (error : Option ErrorMessage) :
    (∀ (m : AdaptiveTextInput) (box : TextBox) (enabled : Bool), m.IsRequired = true → box.Text = "" →
      (m.Regex = "" ∨ (E.regex m.Regex).isSome = true) →
      (InputValue.Validate E ⟨border, error, .TextInputValue m box enabled⟩).1 = .ok false ∧
      (InputValue.Validate E ⟨border, error, .TextInputValue m box enabled⟩).2.changedValidationEnabled = true ∧
      (InputValue.Validate E ⟨border, error, .TextInputValue m box enabled⟩).2.valueChangedHandlers
        = [if enabled then box.TextChanged else box.TextChanged + 1]) ∧
    (∀ (m : AdaptiveNumberInput) (box : TextBox) (enabled : Bool), m.IsRequired = true → box.Text = "" →
      (InputValue.Validate E ⟨border, error, .NumberInputValue m box enabled⟩).1 = .ok false ∧
      (InputValue.Validate E ⟨border, error, .NumberInputValue m box enabled⟩).2.changedValidationEnabled = true ∧
      (InputValue.Validate E ⟨border, error, .NumberInputValue m box enabled⟩).2.valueChangedHandlers
        = [if enabled then box.TextChanged else box.TextChanged + 1]) ∧
    (∀ (m : AdaptiveDateInput) (picker : CalendarDatePicker) (enabled : Bool), m.IsRequired = true →
      picker.Date = none →
      (InputValue.Validate E ⟨border, error, .DateInputValue m picker enabled⟩).1 = .ok false ∧
      (InputValue.Validate E ⟨border, error, .DateInputValue m picker enabled⟩).2.changedValidationEnabled = true ∧
      (InputValue.Validate E ⟨border, error, .DateInputValue m picker enabled⟩).2.valueChangedHandlers
        = [if enabled then picker.DateChanged else picker.DateChanged + 1]) := by
  refine ⟨?_, ?_, ?_⟩
  · intro m box enabled hreq htext hregex
    have hv : InputValue.virtual_IsValueValid E ⟨border, error, .TextInputValue m box enabled⟩ = .ok false := by
      simp only [InputValue.virtual_IsValueValid]
      rw [TextInputValue.IsValueValid_text_eq]
      rcases hregex with h | h
      · simp [h, hreq, htext]
      · cases hp : E.regex m.Regex with
        | none => simp [hp] at h
        | some pattern => simp [hreq, htext]
    have := InputValue.Validate_of_invalid E _ hv
    refine ⟨this.1, this.2.1, ?_⟩
    rw [InputValue.Validate_eq, hv]
    cases enabled <;> rfl
  · intro m box enabled hreq htext
    have hv : InputValue.virtual_IsValueValid E ⟨border, error, .NumberInputValue m box enabled⟩ = .ok false := by
      simp only [InputValue.virtual_IsValueValid]
      rw [NumberInputValue.IsValueValid_number_eq, InputValue.IsValueValid_number]
      simp [hreq, htext]
    have := InputValue.Validate_of_invalid E _ hv
    refine ⟨this.1, this.2.1, ?_⟩
    rw [InputValue.Validate_eq, hv]
    cases enabled <;> rfl
  · intro m picker enabled hreq hdate
    have hv : InputValue.virtual_IsValueValid E ⟨border, error, .DateInputValue m picker enabled⟩ = .ok false := by
      simp only [InputValue.virtual_IsValueValid]
      rw [InputValue.IsValueValid_date_none _ _ _ _ _ hdate]
      simp [hreq]
    have := InputValue.Validate_of_invalid E _ hv
    refine ⟨this.1, this.2.1, ?_⟩
    rw [InputValue.Validate_eq, hv]
    cases enabled <;> rfl

/-- Claim C1, at the input where the code departs from it: a required text input whose box is
empty and whose declared pattern is `(`, which `std::regex` rejects.  The required check of the
base class has computed "not valid", but the constructor of the pattern throws, nothing catches
it, and `Validate` ends with that exception: it does not return false, the feedback is not
written, and no value-changed handler is added (the instance is unchanged).  With the pattern
`[0-9]+` in its place the same call returns false, shows both regions and adds the handler. -/
theorem C1_required_empty_text_uncaught_regex_error :
    InputValue.get_IsRequired
        ⟨some ⟨⟨0, 0, 0, 0⟩⟩, some ⟨.Collapsed⟩, .TextInputValue ⟨true, "("⟩ ⟨"", 0, 0⟩ false⟩ = true ∧
    InputValue.get_CurrentValue
        ⟨some ⟨⟨0, 0, 0, 0⟩⟩, some ⟨.Collapsed⟩, .TextInputValue ⟨true, "("⟩ ⟨"", 0, 0⟩ false⟩ = .ok "" ∧
    InputValue.IsValueValid
        ⟨some ⟨⟨0, 0, 0, 0⟩⟩, some ⟨.Collapsed⟩, .TextInputValue ⟨true, "("⟩ ⟨"", 0, 0⟩ false⟩ = .ok false ∧
    InputValue.Validate stdlib
        ⟨some ⟨⟨0, 0, 0, 0⟩⟩, some ⟨.Collapsed⟩, .TextInputValue ⟨true, "("⟩ ⟨"", 0, 0⟩ false⟩
      = (.error .regex_error,
          ⟨some ⟨⟨0, 0, 0, 0⟩⟩, some ⟨.Collapsed⟩, .TextInputValue ⟨true, "("⟩ ⟨"", 0, 0⟩ false⟩) ∧
    InputValue.Validate stdlib
        ⟨some ⟨⟨0, 0, 0, 0⟩⟩, some ⟨.Collapsed⟩, .TextInputValue ⟨true, "[0-9]+"⟩ ⟨"", 0, 0⟩ false⟩
      = (.ok false,
          ⟨some ⟨⟨1, 1, 1, 1⟩⟩, some ⟨.Visible⟩, .TextInputValue ⟨true, "[0-9]+"⟩ ⟨"", 1, 0⟩ true⟩) := by
  decide

/-- Claim C2, at the inputs where the code departs from it: a time input with the bounds
`09:00` and `17:00`, both of which parse, and the picker at 08:59, at 09:00 and at 17:00
(323400000000, 324000000000 and 612000000000 ticks).  `Validate` returns true for each of them,
as it does at 09:01: the tests against the bounds are joined with an inclusive or to a flag that
starts true. -/
theorem C2_time_bounds_not_enforced :
    stdlib.TryParseSimpleTime "09:00" = some (9, 0) ∧ stdlib.TryParseSimpleTime "17:00" = some (17, 0) ∧
    TimeInputValue.get_CurrentValue ⟨323400000000, 0, 0⟩ = .ok "08:59" ∧
    (InputValue.Validate stdlib
      ⟨none, none, .TimeInputValue ⟨true, "09:00", "17:00"⟩ ⟨323400000000, 0, 0⟩ false⟩).1 = .ok true ∧
    TimeInputValue.get_CurrentValue ⟨324000000000, 0, 0⟩ = .ok "09:00" ∧
    (InputValue.Validate stdlib
      ⟨none, none, .TimeInputValue ⟨true, "09:00", "17:00"⟩ ⟨324000000000, 0, 0⟩ false⟩).1 = .ok true ∧
    TimeInputValue.get_CurrentValue ⟨612000000000, 0, 0⟩ = .ok "17:00" ∧
    (InputValue.Validate stdlib
      ⟨none, none, .TimeInputValue ⟨true, "09:00", "17:00"⟩ ⟨612000000000, 0, 0⟩ false⟩).1 = .ok true ∧
    TimeInputValue.get_CurrentValue ⟨324600000000, 0, 0⟩ = .ok "09:01" ∧
    (InputValue.Validate stdlib
      ⟨none, none, .TimeInputValue ⟨true, "09:00", "17:00"⟩ ⟨324600000000, 0, 0⟩ false⟩).1 = .ok true := by
  decide

/-- Claim C3, at an input where the code departs from it: a text input that is not required,
with the text `abc` and the declared pattern `(`, which `std::regex` rejects.  The required
check of the base class has computed "valid", but the constructor of the pattern throws,
`TextInputValue::IsValueValid` does not catch it, and no validity is computed: the call, and
`Validate` with it, ends with that exception and the instance is unchanged.  With a pattern
`std::regex` accepts the validity is the one of the claim: with `^[a-z]+\d+$` the value
`abc123` is valid and `abc` is not; with `[a-z]+` the value `abc123` is not valid although a
part of it matches, and `abc` is valid. -/
theorem C3_text_validity_uncaught_regex_error :
    InputValue.IsValueValid ⟨none, none, .TextInputValue ⟨false, "("⟩ ⟨"abc", 0, 0⟩ false⟩ = .ok true ∧
    TextInputValue.IsValueValid stdlib ⟨none, none, .TextInputValue ⟨false, "("⟩ ⟨"abc", 0, 0⟩ false⟩
        ⟨false, "("⟩ = .error .regex_error ∧
    InputValue.Validate stdlib ⟨none, none, .TextInputValue ⟨false, "("⟩ ⟨"abc", 0, 0⟩ false⟩
      = (.error .regex_error, ⟨none, none, .TextInputValue ⟨false, "("⟩ ⟨"abc", 0, 0⟩ false⟩) ∧
    InputValue.virtual_IsValueValid stdlib
        ⟨none, none, .TextInputValue ⟨true, "^[a-z]+\\d+$"⟩ ⟨"abc123", 0, 0⟩ false⟩ = .ok true ∧
    InputValue.virtual_IsValueValid stdlib
        ⟨none, none, .TextInputValue ⟨true, "^[a-z]+\\d+$"⟩ ⟨"abc", 0, 0⟩ false⟩ = .ok false ∧
    InputValue.virtual_IsValueValid stdlib
        ⟨none, none, .TextInputValue ⟨true, "[a-z]+"⟩ ⟨"abc123", 0, 0⟩ false⟩ = .ok false ∧
    InputValue.virtual_IsValueValid stdlib
        ⟨none, none, .TextInputValue ⟨true, "[a-z]+"⟩ ⟨"abc", 0, 0⟩ false⟩ = .ok true := by
  decide

/-- Claim C4: for every toggle input the validity is the checked state of the check box when
the model is required and true when it is not, whatever `valueOn` and `valueOff` are; a required
toggle that is not checked and has `valueOff = "no"` serializes as `no` and is not valid, and a
required toggle that is checked is valid. -/
theorem C4_toggle_validity (E : Externals) (border : Option Border) (error : Option ErrorMessage)
    (m : AdaptiveToggleInput) (box : CheckBox) (enabled : Bool) :
    ToggleInputValue.IsValueValid ⟨border, error, .ToggleInputValue m box enabled⟩ box
        = .ok (if m.IsRequired then box.IsChecked else true) ∧
    (InputValue.Validate E ⟨border, error, .ToggleInputValue m box enabled⟩).1
        = .ok (if m.IsRequired then box.IsChecked else true) ∧
    InputValue.get_CurrentValue ⟨none, none, .ToggleInputValue ⟨true, "", "yes", "no"⟩ ⟨false, 0, 0⟩ false⟩
        = .ok "no" ∧
    (InputValue.Validate stdlib ⟨none, none, .ToggleInputValue ⟨true, "", "yes", "no"⟩ ⟨false, 0, 0⟩ false⟩).1
        = .ok false ∧
    (InputValue.Validate stdlib ⟨none, none, .ToggleInputValue ⟨true, "", "yes", "no"⟩ ⟨true, 0, 0⟩ false⟩).1
        = .ok true := by
  have h : InputValue.virtual_IsValueValid E ⟨border, error, .ToggleInputValue m box enabled⟩
      = .ok (if m.IsRequired then box.IsChecked else true) := by
    cases hr : m.IsRequired <;>
      simp [InputValue.virtual_IsValueValid, ToggleInputValue.IsValueValid, InputValue.get_IsRequired,
        XamlHelpers.GetToggleValue, hr]
  refine ⟨h, ?_, ?_, ?_, ?_⟩
  · rw [InputValue.Validate_fst, h]
  · decide
  · decide
  · decide

/-- Claim C7: for every number input, whatever `Min`, `Max` and the text are, and whatever
`std::stoi` does with the text (a value in or out of the bounds, or an exception), the validity
`NumberInputValue::IsValueValid` computes is the required check of the base class alone, and the
call returns. -/
theorem C7_number_validity (E : Externals) (border : Option Border) (error : Option ErrorMessage)
    (m : AdaptiveNumberInput) (box : TextBox) (enabled : Bool) :
    NumberInputValue.IsValueValid E ⟨border, error, .NumberInputValue m box enabled⟩ m
        = InputValue.IsValueValid ⟨border, error, .NumberInputValue m box enabled⟩ ∧
    InputValue.IsValueValid ⟨border, error, .NumberInputValue m box enabled⟩
        = .ok (!m.IsRequired || decide (box.Text ≠ "")) ∧
    (InputValue.Validate E ⟨border, error, .NumberInputValue m box enabled⟩).1
        = .ok (!m.IsRequired || decide (box.Text ≠ "")) := by
  have h1 := NumberInputValue.IsValueValid_number_eq E border error m box enabled
  have h2 := InputValue.IsValueValid_number border error m box enabled
  refine ⟨h1, h2, ?_⟩
  rw [InputValue.Validate_fst]
  exact h1.trans h2

/-- Claim C8: for every kind of input, when the model is not required and declares no constraint
of its kind, `Validate` returns true in every state of the bound control. -/
theorem C8_optional_unconstrained_valid (E : Externals) (self : InputValue)
    (hreq : self.get_IsRequired = false) (hnone : self.declaresNoConstraint = true) :
    (self.Validate E).1 = .ok true := by
  rw [InputValue.Validate_fst]
  obtain ⟨border, error, derived⟩ := self
  cases derived with
  | TextInputValue m box enabled =>
      simp only [InputValue.get_IsRequired] at hreq
      simp only [InputValue.declaresNoConstraint, decide_eq_true_eq] at hnone
      simp only [InputValue.virtual_IsValueValid]
      rw [TextInputValue.IsValueValid_text_eq]
      simp [hreq, hnone]
  | NumberInputValue m box enabled =>
      simp only [InputValue.get_IsRequired] at hreq
      simp only [InputValue.virtual_IsValueValid]
      rw [NumberInputValue.IsValueValid_number_eq, InputValue.IsValueValid_number]
      simp [hreq]
  | DateInputValue m picker enabled =>
      simp only [InputValue.get_IsRequired] at hreq
      simp [InputValue.virtual_IsValueValid, InputValue.IsValueValid, InputValue.get_IsRequired, hreq]
  | TimeInputValue m picker enabled =>
      simp only [InputValue.get_IsRequired] at hreq
      simp only [InputValue.virtual_IsValueValid]
      rw [TimeInputValue.IsValueValid_time_eq]
      simp [InputValue.IsValueValid, InputValue.get_IsRequired, hreq]
  | ToggleInputValue m box enabled =>
      simp only [InputValue.get_IsRequired] at hreq
      simp [InputValue.virtual_IsValueValid, ToggleInputValue.IsValueValid, InputValue.get_IsRequired, hreq]
  | ChoiceSetInputValue m ui enabled =>
      simp only [InputValue.get_IsRequired] at hreq
      simp [InputValue.virtual_IsValueValid, InputValue.IsValueValid, InputValue.get_IsRequired, hreq]

/-- Claim C5 fails as stated: a required multi-select choice set with the values `""` and `b`
whose first control is the only one checked has a checked control, and `Validate` returns false
(the accessor returns the empty string); and with one choice and two checked controls
`Validate` returns no validity but the failure `E_BOUNDS`. -/
theorem C5_checked_choice_counterexample :
    ((∃ c ∈ [(⟨true, 0, 0⟩ : CheckBox), ⟨false, 0, 0⟩], c.IsChecked = true) ∧
      (InputValue.Validate stdlib ⟨none, none,
        .ChoiceSetInputValue ⟨true, .Expanded, true, [⟨""⟩, ⟨"b"⟩]⟩
          (.panel [⟨true, 0, 0⟩, ⟨false, 0, 0⟩] 0) false⟩).1 = .ok false) ∧
    ((∃ c ∈ [(⟨true, 0, 0⟩ : CheckBox), ⟨true, 0, 0⟩], c.IsChecked = true) ∧
      (InputValue.Validate stdlib ⟨none, none,
        .ChoiceSetInputValue ⟨true, .Expanded, true, [⟨"a"⟩]⟩
          (.panel [⟨true, 0, 0⟩, ⟨true, 0, 0⟩] 0) false⟩).1 = .error .E_BOUNDS) := by
  decide

/-- The amended claim C5 at three choices `a`, `b`, `c` with the first control checked. -/
theorem C5_required_multiSelect_witness :
    [(⟨true, 0, 0⟩ : CheckBox), ⟨false, 0, 0⟩, ⟨false, 0, 0⟩].length
        ≤ (AdaptiveChoiceSetInput.mk true .Expanded true [⟨"a"⟩, ⟨"b"⟩, ⟨"c"⟩]).Choices.length ∧
    (InputValue.Validate stdlib ⟨none, none,
      .ChoiceSetInputValue ⟨true, .Expanded, true, [⟨"a"⟩, ⟨"b"⟩, ⟨"c"⟩]⟩
        (.panel [⟨true, 0, 0⟩, ⟨false, 0, 0⟩, ⟨false, 0, 0⟩] 0) false⟩).1 = .ok true :=
  ⟨by decide,
    (C5_required_multiSelect stdlib none none ⟨true, .Expanded, true, [⟨"a"⟩, ⟨"b"⟩, ⟨"c"⟩]⟩
      [⟨true, 0, 0⟩, ⟨false, 0, 0⟩, ⟨false, 0, 0⟩] 0 false rfl rfl (by decide)).2
      0 ⟨true, 0, 0⟩ ⟨"a"⟩ rfl rfl rfl (by decide)⟩

/-- Claim C6 at the values `a`, `b`, `c` with the first and the third control checked: the accessor returns `a,c`. -/
theorem C6_multiSelect_accessor_witness :
    [(⟨true, 0, 0⟩ : CheckBox), ⟨false, 0, 0⟩, ⟨true, 0, 0⟩].length
        = (AdaptiveChoiceSetInput.mk false .Expanded true [⟨"a"⟩, ⟨"b"⟩, ⟨"c"⟩]).Choices.length ∧
    ChoiceSetInputValue.get_CurrentValue ⟨false, .Expanded, true, [⟨"a"⟩, ⟨"b"⟩, ⟨"c"⟩]⟩
        (.panel [⟨true, 0, 0⟩, ⟨false, 0, 0⟩, ⟨true, 0, 0⟩] 0) = .ok "a,c" :=
  ⟨rfl,
    (C6_multiSelect_accessor ⟨false, .Expanded, true, [⟨"a"⟩, ⟨"b"⟩, ⟨"c"⟩]⟩
      [⟨true, 0, 0⟩, ⟨false, 0, 0⟩, ⟨true, 0, 0⟩] 0 rfl rfl).1.trans (by decide)⟩

/-- Claim C8 at a text input that is not required, declares no pattern and has an empty box. -/
theorem C8_optional_unconstrained_valid_witness :
    InputValue.get_IsRequired ⟨none, none, .TextInputValue ⟨false, ""⟩ ⟨"", 0, 0⟩ false⟩ = false ∧
    InputValue.declaresNoConstraint ⟨none, none, .TextInputValue ⟨false, ""⟩ ⟨"", 0, 0⟩ false⟩ = true ∧
    (InputValue.Validate stdlib ⟨none, none, .TextInputValue ⟨false, ""⟩ ⟨"", 0, 0⟩ false⟩).1 = .ok true :=
  ⟨rfl, rfl, C8_optional_unconstrained_valid stdlib ⟨none, none, .TextInputValue ⟨false, ""⟩ ⟨"", 0, 0⟩ false⟩ rfl rfl⟩

/-- Claim C9 at a required text input: the first validation of the empty box shows both regions, and the validation after the user typed `x` collapses both. -/
theorem C9_feedback_follows_validity_witness :
    ((Example.requiredText.Validate stdlib).1 = .ok false ∧
      (Example.requiredText.Validate stdlib).2.m_validationBorder = some ⟨⟨1, 1, 1, 1⟩⟩ ∧
      (Example.requiredText.Validate stdlib).2.m_validationError = some ⟨.Visible⟩) ∧
    (((Example.requiredText.run stdlib [.validate, .valueChanged (.Text "x")]).Validate stdlib).1 = .ok true ∧
      ((Example.requiredText.run stdlib [.validate, .valueChanged (.Text "x")]).Validate stdlib).2.m_validationBorder
        = some ⟨⟨0, 0, 0, 0⟩⟩ ∧
      ((Example.requiredText.run stdlib [.validate, .valueChanged (.Text "x")]).Validate stdlib).2.m_validationError
        = some ⟨.Collapsed⟩) :=
  ⟨⟨by decide, C9_feedback_follows_validity stdlib Example.requiredText [] false (by decide)⟩,
    ⟨by decide,
      C9_feedback_follows_validity stdlib Example.requiredText [.validate, .valueChanged (.Text "x")] true
        (by decide)⟩⟩

/-- Claim C10 at a required multi-select choice set with three controls: after failing validations each control has one click handler, and a click runs `Validate` once. -/
theorem C10_value_changed_handler_added_once_witness :
    Example.requiredChoiceSet.Lazy ∧
    (Example.requiredChoiceSet.run stdlib [.validate, .lostFocus (some 2)]).valueChangedHandlers = [1, 1, 1] ∧
    ((Example.requiredChoiceSet.run stdlib [.validate, .lostFocus (some 2)]).Validate stdlib).1 = .ok false ∧
    (((((Example.requiredChoiceSet.run stdlib [.validate, .lostFocus (some 2)]).Validate stdlib).2.run stdlib
      [.validate, .valueChanged (.Choice 0 [true, false, false]), .valueChanged (.Choice 0 [false, false, false])]).step
        stdlib (.valueChanged (.Choice 1 [false, false, false]))).1 = 1) :=
  ⟨by decide, by decide, by decide,
    ((C10_value_changed_handler_added_once stdlib Example.requiredChoiceSet (by decide)
      [.validate, .lostFocus (some 2)]).2 (by decide)
      [.validate, .valueChanged (.Choice 0 [true, false, false]), .valueChanged (.Choice 0 [false, false, false])]).2
      (.Choice 1 [false, false, false]) (by decide)⟩

/-- Writing back the element read at an index keeps what a function reads from each element, when
the function reads the same from the new element. -/
theorem map_set_of_eq {α β : Type} (f : α → β) (l : List α) (i : Nat) (x y : α) (hx : l[i]? = some x)
    (hy : f y = f x) : (l.set i y).map f = l.map f := by
  induction l generalizing i with
  | nil => rfl
  | cons a l ih =>
      cases i with
      | zero =>
          simp only [List.getElem?_cons_zero, Option.some.injEq] at hx
          subst hx
          simp [hy]
      | succ i =>
          simp only [List.getElem?_cons_succ] at hx
          simp [ih i hx]

/-- Adding a focus-loss handler changes neither the flag nor the value-changed handlers. -/
theorem InputValue.virtual_EnableFocusLostValidation_handlers (self : InputValue) :
    (self.virtual_EnableFocusLostValidation).2.changedValidationEnabled = self.changedValidationEnabled ∧
    (self.virtual_EnableFocusLostValidation).2.valueChangedHandlers = self.valueChangedHandlers := by
  obtain ⟨border, error, derived⟩ := self
  cases derived with
  | ChoiceSetInputValue m ui enabled =>
      simp only [InputValue.virtual_EnableFocusLostValidation, ChoiceSetInputValue.EnableFocusLostValidation]
      split
      · cases ui <;> exact ⟨rfl, rfl⟩
      · cases ui with
        | selector s => exact ⟨rfl, rfl⟩
        | panel children lostFocus =>
            simp only
            generalize (children.length + 4294967295) % 4294967296 = index
            unfold IVector.GetAt
            have hneg : ¬ ((index : Int) < 0) := Int.not_lt.mpr (Int.ofNat_nonneg index)
            rw [if_neg hneg, Int.toNat_ofNat]
            cases hget : children[index]? with
            | none => exact ⟨rfl, rfl⟩
            | some lastElement =>
                refine ⟨rfl, ?_⟩
                simp only [InputValue.valueChangedHandlers]
                exact map_set_of_eq (fun c : CheckBox => c.Click) children index lastElement
                  { lastElement with LostFocus := lastElement.LostFocus + 1 } hget rfl
  | _ => exact ⟨rfl, rfl⟩

/-- An instance as the constructor of its class leaves it and `RuntimeClassInitialize` binds it
is lazy when its controls carry no value-changed handler. -/
theorem InputValue.RuntimeClassInitialize_lazy (renderContext : AdaptiveRenderContext) (self : InputValue)
    (h : self.Lazy) : (InputValue.RuntimeClassInitialize renderContext self).2.Lazy := by
  have hfocus := InputValue.virtual_EnableFocusLostValidation_handlers self
  have hlazy : (self.virtual_EnableFocusLostValidation).2.Lazy :=
    ⟨hfocus.1.trans h.1, by rw [hfocus.2]; exact h.2⟩
  unfold InputValue.RuntimeClassInitialize
  cases renderContext.InlineValidation
  · exact h
  · exact hlazy

/-- The multi-select loop reads the checked states of the children and nothing else. -/
theorem ChoiceSetInputValue.multiSelectLoop_congr (m : AdaptiveChoiceSetInput) (children children' : List CheckBox)
    (i : Nat) (acc : String) (h : children.map (·.IsChecked) = children'.map (·.IsChecked)) :
    ChoiceSetInputValue.multiSelectLoop m children i acc = ChoiceSetInputValue.multiSelectLoop m children' i acc := by
  induction children generalizing children' i acc with
  | nil =>
      cases children' with
      | nil => rfl
      | cons c' rest' => simp at h
  | cons c rest ih =>
      cases children' with
      | nil => simp at h
      | cons c' rest' =>
          simp only [List.map_cons, List.cons.injEq] at h
          unfold ChoiceSetInputValue.multiSelectLoop
          have ih' := fun acc => ih rest' (i + 1) acc h.2
          simp only [XamlHelpers.GetToggleValue, h.1, ih']

/-- The single-select loop reads the checked states of the children and nothing else. -/
theorem ChoiceSetInputValue.singleSelectLoop_congr (children children' : List CheckBox) (i : Nat)
    (h : children.map (·.IsChecked) = children'.map (·.IsChecked)) :
    ChoiceSetInputValue.singleSelectLoop children i = ChoiceSetInputValue.singleSelectLoop children' i := by
  induction children generalizing children' i with
  | nil =>
      cases children' with
      | nil => rfl
      | cons c' rest' => simp at h
  | cons c rest ih =>
      cases children' with
      | nil => simp at h
      | cons c' rest' =>
          simp only [List.map_cons, List.cons.injEq] at h
          unfold ChoiceSetInputValue.singleSelectLoop
          simp only [XamlHelpers.GetToggleValue, h.1, ih rest' (i + 1) h.2]

/-- The accessor of a choice set bound to a panel reads the checked states of the children and
nothing else. -/
theorem ChoiceSetInputValue.get_CurrentValue_congr (m : AdaptiveChoiceSetInput) (children children' : List CheckBox)
    (lostFocus lostFocus' : Nat) (h : children.map (·.IsChecked) = children'.map (·.IsChecked)) :
    ChoiceSetInputValue.get_CurrentValue m (.panel children lostFocus)
      = ChoiceSetInputValue.get_CurrentValue m (.panel children' lostFocus') := by
  unfold ChoiceSetInputValue.get_CurrentValue
  simp only [ChoiceSetInputValue.multiSelectLoop_congr m children children' 0 "" h,
    ChoiceSetInputValue.singleSelectLoop_congr children children' 0 h]

/-- Instances of the same value have the same accessor value. -/
theorem InputValue.get_CurrentValue_sameValue (self other : InputValue) (h : self.sameValue other) :
    self.get_CurrentValue = other.get_CurrentValue := by
  obtain ⟨b, e, d⟩ := self
  obtain ⟨b', e', d'⟩ := other
  cases d <;> cases d' <;> simp only [InputValue.sameValue] at h
  case TextInputValue.TextInputValue =>
    simp [InputValue.get_CurrentValue, TextInputBase.get_CurrentValue, h.2]
  case NumberInputValue.NumberInputValue =>
    simp [InputValue.get_CurrentValue, TextInputBase.get_CurrentValue, h.2]
  case DateInputValue.DateInputValue =>
    simp [InputValue.get_CurrentValue, DateInputValue.get_CurrentValue, h.2]
  case TimeInputValue.TimeInputValue =>
    simp [InputValue.get_CurrentValue, TimeInputValue.get_CurrentValue, h.2]
  case ToggleInputValue.ToggleInputValue =>
    simp [InputValue.get_CurrentValue, ToggleInputValue.get_CurrentValue, XamlHelpers.GetToggleValue, h.1, h.2]
  case ChoiceSetInputValue.ChoiceSetInputValue m ui en m' ui' en' =>
    cases ui <;> cases ui' <;> simp only at h
    · obtain ⟨rfl, hs⟩ := h
      simp [InputValue.get_CurrentValue, ChoiceSetInputValue.get_CurrentValue, hs]
    · obtain ⟨rfl, hs⟩ := h
      simp only [InputValue.get_CurrentValue]
      exact ChoiceSetInputValue.get_CurrentValue_congr _ _ _ _ _ hs

/-- Instances of the same value have the same required check. -/
theorem InputValue.IsValueValid_sameValue (self other : InputValue) (h : self.sameValue other) :
    InputValue.IsValueValid self = InputValue.IsValueValid other := by
  have hv := InputValue.get_CurrentValue_sameValue self other h
  have hr : self.get_IsRequired = other.get_IsRequired := by
    obtain ⟨b, e, d⟩ := self
    obtain ⟨b', e', d'⟩ := other
    cases d <;> cases d' <;> simp only [InputValue.sameValue] at h
    case ChoiceSetInputValue.ChoiceSetInputValue m ui en m' ui' en' =>
      cases ui <;> cases ui' <;> simp only at h <;> simp [InputValue.get_IsRequired, h.1]
    all_goals simp [InputValue.get_IsRequired, h.1]
  unfold InputValue.IsValueValid
  rw [hv, hr]

/-- Instances of the same value have the same validity. -/
theorem InputValue.virtual_IsValueValid_sameValue (E : Externals) (self other : InputValue)
    (h : self.sameValue other) : self.virtual_IsValueValid E = other.virtual_IsValueValid E := by
  have hb := InputValue.IsValueValid_sameValue self other h
  have hv := InputValue.get_CurrentValue_sameValue self other h
  have hr : self.get_IsRequired = other.get_IsRequired := by
    obtain ⟨b, e, d⟩ := self
    obtain ⟨b', e', d'⟩ := other
    cases d <;> cases d' <;> simp only [InputValue.sameValue] at h
    case ChoiceSetInputValue.ChoiceSetInputValue m ui en m' ui' en' =>
      cases ui <;> cases ui' <;> simp only at h <;> simp [InputValue.get_IsRequired, h.1]
    all_goals simp [InputValue.get_IsRequired, h.1]
  obtain ⟨b, e, d⟩ := self
  obtain ⟨b', e', d'⟩ := other
  cases d <;> cases d' <;> simp only [InputValue.sameValue] at h
  case TextInputValue.TextInputValue =>
    obtain ⟨rfl, ht⟩ := h
    simp only [InputValue.virtual_IsValueValid, TextInputValue.IsValueValid, hb, hv]
  case NumberInputValue.NumberInputValue =>
    obtain ⟨rfl, ht⟩ := h
    simp only [InputValue.virtual_IsValueValid, NumberInputValue.IsValueValid, hb, hv]
  case DateInputValue.DateInputValue =>
    simp only [InputValue.virtual_IsValueValid, hb]
  case TimeInputValue.TimeInputValue =>
    obtain ⟨rfl, ht⟩ := h
    simp only [InputValue.virtual_IsValueValid, TimeInputValue.IsValueValid, hb, ht]
  case ToggleInputValue.ToggleInputValue =>
    obtain ⟨rfl, ht⟩ := h
    simp only [InputValue.virtual_IsValueValid, ToggleInputValue.IsValueValid, hr, XamlHelpers.GetToggleValue, ht]
  case ChoiceSetInputValue.ChoiceSetInputValue =>
    simp only [InputValue.virtual_IsValueValid, hb]

/-- Writing the feedback does not change the value. -/
theorem InputValue.sameValue_withFeedback (self : InputValue) (b : Bool) :
    (self.withFeedback b).sameValue self := by
  obtain ⟨border, error, d⟩ := self
  cases d with
  | ChoiceSetInputValue m ui en => cases ui <;> simp [InputValue.sameValue, InputValue.withFeedback]
  | _ => simp [InputValue.sameValue, InputValue.withFeedback]

/-- Adding the value-changed handlers does not change the value. -/
theorem InputValue.sameValue_EnableValueChangedValidation (self : InputValue) :
    (self.EnableValueChangedValidation).2.sameValue self := by
  obtain ⟨border, error, d⟩ := self
  cases d with
  | ChoiceSetInputValue m ui en =>
      cases en
      · simp only [InputValue.EnableValueChangedValidation, ChoiceSetInputValue.EnableValueChangedValidation,
          Bool.not_false, if_true]
        split <;> cases ui <;> simp [InputValue.sameValue, CheckBox.add_Click, Function.comp_def]
      · cases ui <;> simp [InputValue.sameValue, InputValue.EnableValueChangedValidation,
          ChoiceSetInputValue.EnableValueChangedValidation]
  | TextInputValue m box en =>
      cases en <;> simp [InputValue.sameValue, InputValue.EnableValueChangedValidation,
        TextInputBase.EnableValueChangedValidation]
  | NumberInputValue m box en =>
      cases en <;> simp [InputValue.sameValue, InputValue.EnableValueChangedValidation,
        TextInputBase.EnableValueChangedValidation]
  | DateInputValue m box en =>
      cases en <;> simp [InputValue.sameValue, InputValue.EnableValueChangedValidation,
        DateInputValue.EnableValueChangedValidation]
  | TimeInputValue m box en =>
      cases en <;> simp [InputValue.sameValue, InputValue.EnableValueChangedValidation,
        TimeInputValue.EnableValueChangedValidation]
  | ToggleInputValue m box en =>
      cases en <;> simp [InputValue.sameValue, InputValue.EnableValueChangedValidation,
        ToggleInputValue.EnableValueChangedValidation]

/-- Adding a focus-loss handler does not change the value. -/
theorem InputValue.sameValue_EnableFocusLostValidation (self : InputValue) :
    (self.virtual_EnableFocusLostValidation).2.sameValue self := by
  obtain ⟨border, error, d⟩ := self
  cases d with
  | ChoiceSetInputValue m ui enabled =>
      simp only [InputValue.virtual_EnableFocusLostValidation, ChoiceSetInputValue.EnableFocusLostValidation]
      split
      · cases ui <;> simp [InputValue.sameValue, InputValue.EnableFocusLostValidation, UIElement.add_LostFocus]
      · cases ui with
        | selector s => simp [InputValue.sameValue]
        | panel children lostFocus =>
            simp only
            generalize (children.length + 4294967295) % 4294967296 = index
            unfold IVector.GetAt
            have hneg : ¬ ((index : Int) < 0) := Int.not_lt.mpr (Int.ofNat_nonneg index)
            rw [if_neg hneg, Int.toNat_ofNat]
            cases hget : children[index]? with
            | none => simp [InputValue.sameValue]
            | some lastElement =>
                simp only [InputValue.sameValue, true_and]
                exact map_set_of_eq (fun c : CheckBox => c.IsChecked) children index lastElement
                  { lastElement with LostFocus := lastElement.LostFocus + 1 } hget rfl
  | _ => simp [InputValue.sameValue, InputValue.virtual_EnableFocusLostValidation,
      InputValue.EnableFocusLostValidation]

/-- Initialization does not change the value. -/
theorem InputValue.sameValue_RuntimeClassInitialize (renderContext : AdaptiveRenderContext) (self : InputValue) :
    (InputValue.RuntimeClassInitialize renderContext self).2.sameValue self := by
  have h := InputValue.sameValue_EnableFocusLostValidation self
  have h0 : self.sameValue self := by
    have := InputValue.sameValue_withFeedback self true
    obtain ⟨border, error, d⟩ := self
    cases d with
    | ChoiceSetInputValue m ui en => cases ui <;> simp [InputValue.sameValue]
    | _ => simp [InputValue.sameValue]
  unfold InputValue.RuntimeClassInitialize
  cases renderContext.InlineValidation
  · exact h0
  · exact h

/-- Writing the same feedback twice is writing it once. -/
theorem InputValue.withFeedback_withFeedback (self : InputValue) (b : Bool) :
    (self.withFeedback b).withFeedback b = self.withFeedback b := by
  obtain ⟨border, error, d⟩ := self
  cases border <;> cases error <;> rfl

/-- Writing the feedback to an instance that carries it already changes nothing. -/
theorem InputValue.withFeedback_of_regions (self other : InputValue) (b : Bool)
    (h1 : other.m_validationBorder = (self.withFeedback b).m_validationBorder)
    (h2 : other.m_validationError = (self.withFeedback b).m_validationError) :
    other.withFeedback b = other := by
  obtain ⟨border, error, d⟩ := self
  obtain ⟨border', error', d'⟩ := other
  simp only [InputValue.withFeedback] at h1 h2
  subst h1 h2
  cases border <;> cases error <;> rfl

/-- Two calls of `Validate` in a row: the second returns what the first returned and leaves
the instance as the first left it. -/
theorem InputValue.Validate_Validate (E : Externals) (self : InputValue) :
    (self.Validate E).2.Validate E = self.Validate E := by
  rw [InputValue.Validate_eq E self]
  cases hv : self.virtual_IsValueValid E with
  | error e => simp only; rw [InputValue.Validate_eq, hv]
  | ok v =>
      cases v with
      | true =>
          simp only
          rw [InputValue.Validate_eq,
            InputValue.virtual_IsValueValid_sameValue E _ _ (InputValue.sameValue_withFeedback self true), hv]
          simp only [InputValue.withFeedback_withFeedback]
      | false =>
          simp only
          have hsame := InputValue.virtual_IsValueValid_sameValue E _ _
            (InputValue.sameValue_EnableValueChangedValidation (self.withFeedback false))
          rw [InputValue.virtual_IsValueValid_sameValue E _ _ (InputValue.sameValue_withFeedback self false),
            hv] at hsame
          have hflag := (InputValue.Validate_of_invalid E self hv).2.1
          rw [InputValue.Validate_eq, hv] at hflag
          simp only at hflag
          have hreg := InputValue.EnableValueChangedValidation_regions (self.withFeedback false)
          rw [InputValue.Validate_eq, hsame]
          simp only
          rw [InputValue.withFeedback_of_regions self _ false hreg.1 hreg.2,
            InputValue.EnableValueChangedValidation_of_enabled _ hflag]

/-- The flag after `Validate`: it is set exactly when it was set before or the call returned
false. -/
theorem InputValue.Validate_flag_iff (E : Externals) (self : InputValue) :
    (self.Validate E).2.changedValidationEnabled = true ↔
      self.changedValidationEnabled = true ∨ (self.Validate E).1 = .ok false := by
  have hinv := InputValue.Validate_of_invalid E self
  rw [InputValue.Validate_eq] at hinv ⊢
  cases hv : self.virtual_IsValueValid E with
  | error e => simp [InputValue.changedValidationEnabled]
  | ok v =>
      cases v with
      | true =>
          have hne : ¬ ((Except.ok true : Except Failure Bool) = Except.ok false) := by decide
          simp only [hne, or_false]
          exact Iff.rfl
      | false =>
          have := (hinv hv).2.1
          simp only [hv] at this
          simp [this]

/-- A call of `Validate` that returns true changes only the feedback regions. -/
theorem InputValue.Validate_true_derived (E : Externals) (self : InputValue)
    (h : (self.Validate E).1 = .ok true) : (self.Validate E).2.derived = self.derived := by
  rw [InputValue.Validate_eq] at h ⊢
  cases hv : self.virtual_IsValueValid E with
  | error e => rfl
  | ok v =>
      cases v with
      | true => rfl
      | false => simp [hv] at h

/-- Handlers keep a flag that is set. -/
theorem InputValue.raise_flag (E : Externals) (n : Nat) (self : InputValue)
    (h : self.changedValidationEnabled = true) : (self.raise E n).changedValidationEnabled = true := by
  induction n generalizing self with
  | zero => exact h
  | succ n ih => exact ih _ ((InputValue.Validate_flag_iff E self).mpr (Or.inl h))

/-- An event keeps a flag that is set. -/
theorem InputValue.step_flag (E : Externals) (self : InputValue) (event : Event)
    (h : self.changedValidationEnabled = true) : (self.step E event).2.changedValidationEnabled = true := by
  cases event with
  | validate => exact (InputValue.Validate_flag_iff E self).mpr (Or.inl h)
  | valueChanged e => exact InputValue.raise_flag E _ _ ((InputValue.edit_handlers self e).1.trans h)
  | lostFocus child => exact InputValue.raise_flag E _ _ h

/-- A sequence of events keeps a flag that is set. -/
theorem InputValue.run_flag (E : Externals) (events : List Event) (self : InputValue)
    (h : self.changedValidationEnabled = true) : (self.run E events).changedValidationEnabled = true := by
  induction events generalizing self with
  | nil => exact h
  | cons event events ih => exact ih _ (InputValue.step_flag E self event h)

/-- Initialization leaves the flag as it is. -/
theorem InputValue.RuntimeClassInitialize_flag (renderContext : AdaptiveRenderContext) (self : InputValue) :
    (InputValue.RuntimeClassInitialize renderContext self).2.changedValidationEnabled
      = self.changedValidationEnabled := by
  have h := (InputValue.virtual_EnableFocusLostValidation_handlers self).1
  unfold InputValue.RuntimeClassInitialize
  cases renderContext.InlineValidation
  · rfl
  · exact h

/-- Claim C11: the flag that guards the value-changed handlers is false after the construction
and initialization of an instance of each of the six classes, and once it is true it stays true:
through every call of `Validate`, every event and every sequence of events (calls of `Validate`,
edits with their value-changed handlers, losses of focus with their handlers). -/
theorem C11_flag_starts_false_and_is_monotone (E : Externals) :
    (∀ (c : AdaptiveRenderContext) (m : AdaptiveTextInput) (box : TextBox) (border : Option Border)
        (error : Option ErrorMessage),
      (TextInputValue.RuntimeClassInitialize c m box border error).2.changedValidationEnabled = false) ∧
    (∀ (c : AdaptiveRenderContext) (m : AdaptiveNumberInput) (box : TextBox) (border : Option Border)
        (error : Option ErrorMessage),
      (NumberInputValue.RuntimeClassInitialize c m box border error).2.changedValidationEnabled = false) ∧
    (∀ (c : AdaptiveRenderContext) (m : AdaptiveDateInput) (picker : CalendarDatePicker)
        (border : Option Border) (error : Option ErrorMessage),
      (DateInputValue.RuntimeClassInitialize c m picker border error).2.changedValidationEnabled = false) ∧
    (∀ (c : AdaptiveRenderContext) (m : AdaptiveTimeInput) (picker : TimePicker) (border : Option Border)
        (error : Option ErrorMessage),
      (TimeInputValue.RuntimeClassInitialize c m picker border error).2.changedValidationEnabled = false) ∧
    (∀ (c : AdaptiveRenderContext) (m : AdaptiveToggleInput) (box : CheckBox) (border : Option Border)
        (error : Option ErrorMessage),
      (ToggleInputValue.RuntimeClassInitialize c m box border error).2.changedValidationEnabled = false) ∧
    (∀ (c : AdaptiveRenderContext) (m : AdaptiveChoiceSetInput) (ui : UIElement) (border : Option Border)
        (error : Option ErrorMessage),
      (ChoiceSetInputValue.RuntimeClassInitialize c m ui border error).2.changedValidationEnabled = false) ∧
    (∀ (self : InputValue) (events : List Event), self.changedValidationEnabled = true →
      (self.run E events).changedValidationEnabled = true) ∧
    (∀ (self : InputValue) (event : Event), self.changedValidationEnabled = true →
      (self.step E event).2.changedValidationEnabled = true) ∧
    (∀ (self : InputValue), self.changedValidationEnabled = true →
      (self.Validate E).2.changedValidationEnabled = true) := by
  refine ⟨?_, ?_, ?_, ?_, ?_, ?_, ?_, ?_, ?_⟩
  · intro c m box border error
    exact InputValue.RuntimeClassInitialize_flag c _
  · intro c m box border error
    exact InputValue.RuntimeClassInitialize_flag c _
  · intro c m box border error
    exact InputValue.RuntimeClassInitialize_flag c _
  · intro c m box border error
    exact InputValue.RuntimeClassInitialize_flag c _
  · intro c m box border error
    exact InputValue.RuntimeClassInitialize_flag c _
  · intro c m ui border error
    exact InputValue.RuntimeClassInitialize_flag c _
  · intro self events h
    exact InputValue.run_flag E events self h
  · intro self event h
    exact InputValue.step_flag E self event h
  · intro self h
    exact (InputValue.Validate_flag_iff E self).mpr (Or.inl h)

/-- Claim C12: for every state of an instance, after a call of `Validate` the flag is true if and
only if it was true before the call or the call returned false; a call that returns true leaves
the flag and the value-changed handlers as they were; and the outcome of the call and the flag
after it are the same whether or not the instance was initialized with inline validation. -/
theorem C12_eager_exactly_when_invalid (E : Externals) (self : InputValue) :
    ((self.Validate E).2.changedValidationEnabled = true ↔
      self.changedValidationEnabled = true ∨ (self.Validate E).1 = .ok false) ∧
    ((self.Validate E).1 = .ok true →
      (self.Validate E).2.changedValidationEnabled = self.changedValidationEnabled ∧
      (self.Validate E).2.valueChangedHandlers = self.valueChangedHandlers) ∧
    (∀ renderContext : AdaptiveRenderContext,
      ((InputValue.RuntimeClassInitialize renderContext self).2.Validate E).1 = (self.Validate E).1 ∧
      ((InputValue.RuntimeClassInitialize renderContext self).2.Validate E).2.changedValidationEnabled
        = (self.Validate E).2.changedValidationEnabled) := by
  refine ⟨InputValue.Validate_flag_iff E self, ?_, ?_⟩
  · intro h
    have hd := InputValue.Validate_true_derived E self h
    simp only [InputValue.changedValidationEnabled, InputValue.valueChangedHandlers, hd]
    exact ⟨trivial, trivial⟩
  · intro renderContext
    have hres : ((InputValue.RuntimeClassInitialize renderContext self).2.Validate E).1
        = (self.Validate E).1 := by
      rw [InputValue.Validate_fst, InputValue.Validate_fst]
      exact InputValue.virtual_IsValueValid_sameValue E _ _
        (InputValue.sameValue_RuntimeClassInitialize renderContext self)
    refine ⟨hres, ?_⟩
    have h1 := InputValue.Validate_flag_iff E (InputValue.RuntimeClassInitialize renderContext self).2
    have h2 := InputValue.Validate_flag_iff E self
    rw [hres, InputValue.RuntimeClassInitialize_flag] at h1
    exact Bool.eq_iff_iff.mpr (h1.trans h2.symm)

/-- Claim C13: for every state of an instance, a second call of `Validate` right after a first
one returns what the first returned and leaves the instance (feedback regions, flag, handlers)
exactly as the first left it. -/
theorem C13_validate_twice_is_validate_once (E : Externals) (self : InputValue) :
    ((self.Validate E).2.Validate E).1 = (self.Validate E).1 ∧
    ((self.Validate E).2.Validate E).2 = (self.Validate E).2 := by
  rw [InputValue.Validate_Validate]
  exact ⟨rfl, rfl⟩

/-- Below 100, `%02llu` writes the two decimal digits. -/
theorem twoDigits_eq : ∀ n < 100, twoDigits n = String.mk [Nat.digitChar (n / 10), Nat.digitChar (n % 10)] := by
  decide

/-- The minutes since midnight of a duration that is not negative. -/
theorem totalMinutes_eq (d : Nat) (h : d < 864000000000) :
    (Int.tdiv (Int.tdiv (d : Int) 10000000) 60 % 18446744073709551616).toNat = d / 600000000 := by
  have h1 : Int.tdiv (d : Int) 10000000 = ((d / 10000000 : Nat) : Int) := rfl
  have h2 : Int.tdiv ((d / 10000000 : Nat) : Int) 60 = ((d / 10000000 / 60 : Nat) : Int) := rfl
  rw [h1, h2]
  omega

/-- The accessor of a time input whose picker is between midnight and the end of the day. -/
theorem TimeInputValue.get_CurrentValue_eq (d timeChanged lostFocus : Nat) (h : d < 864000000000) :
    TimeInputValue.get_CurrentValue ⟨(d : Int), timeChanged, lostFocus⟩
      = .ok (HHMM (d / 36000000000) (d / 600000000 % 60)) := by
  have hh : d / 600000000 / 60 = d / 36000000000 := by omega
  have hm : d / 600000000 - d / 36000000000 * 60 = d / 600000000 % 60 := by omega
  have hh100 : d / 36000000000 < 100 := by omega
  have hm100 : d / 600000000 % 60 < 100 := by omega
  simp only [TimeInputValue.get_CurrentValue, totalMinutes_eq d h, hh, hm,
    twoDigits_eq _ hh100, twoDigits_eq _ hm100]
  rfl

/-- The single-select loop followed by the lookup, when no child lies past the choices: the
first of the checked values, or the empty string. -/
theorem ChoiceSetInputValue.singleSelectLoop_eq (m : AdaptiveChoiceSetInput) (children : List CheckBox)
    (i : Nat) (h : children.length + i ≤ m.Choices.length) :
    ChoiceSetInputValue.GetChoiceValue m (ChoiceSetInputValue.singleSelectLoop children i)
      = .ok ((checkedValues (m.Choices.drop i) children).head?.getD "") := by
  induction children generalizing i with
  | nil => simp [ChoiceSetInputValue.singleSelectLoop, ChoiceSetInputValue.GetChoiceValue, checkedValues]
  | cons c rest ih =>
      have hi : i < m.Choices.length := by simp only [List.length_cons] at h; omega
      have hdrop : m.Choices.drop i = m.Choices[i] :: m.Choices.drop (i + 1) := by
        rw [List.drop_eq_getElem_cons hi]
      have hget : m.Choices[i]? = some m.Choices[i] := by simp [hi]
      have hrest : rest.length + (i + 1) ≤ m.Choices.length := by simp only [List.length_cons] at h; omega
      unfold ChoiceSetInputValue.singleSelectLoop
      cases hc : c.IsChecked
      · simp only [XamlHelpers.GetToggleValue, hc, Bool.false_eq_true, if_false]
        rw [ih (i + 1) hrest, hdrop, checkedValues_cons, hc]
        rfl
      · simp only [XamlHelpers.GetToggleValue, hc, if_true]
        rw [ChoiceSetInputValue.GetChoiceValue_ofNat m i _ hget, hdrop, checkedValues_cons, hc]
        rfl

/-- The accessor of a time input never returns the empty string. -/
theorem TimeInputValue.get_CurrentValue_ne_empty (picker : TimePicker) (value : String)
    (h : TimeInputValue.get_CurrentValue picker = .ok value) : value ≠ "" := by
  simp only [TimeInputValue.get_CurrentValue, sprintf_s] at h
  split at h
  · simp only [Except.ok.injEq] at h
    intro hv
    rw [hv] at h
    have := congrArg String.data h
    simp at this
  · simp at h

/-- The validity of a time input is never "not valid". -/
theorem InputValue.virtual_IsValueValid_time (E : Externals) (self : InputValue)
    (h : self.isTimeInput = true) : self.virtual_IsValueValid E ≠ .ok false := by
  obtain ⟨border, error, d⟩ := self
  cases d <;> simp only [InputValue.isTimeInput, Bool.false_eq_true] at h
  rename_i m picker enabled
  simp only [InputValue.virtual_IsValueValid]
  rw [TimeInputValue.IsValueValid_time_eq]
  intro hf
  have h2 := InputValue.IsValueValid_ok_false _ hf
  exact TimeInputValue.get_CurrentValue_ne_empty picker "" h2.2 rfl

/-- A call of `Validate` changes only the feedback regions of a time input. -/
theorem InputValue.Validate_time (E : Externals) (self : InputValue) (h : self.isTimeInput = true) :
    (self.Validate E).2.derived = self.derived := by
  have hv := InputValue.virtual_IsValueValid_time E self h
  rw [InputValue.Validate_eq]
  cases hval : self.virtual_IsValueValid E with
  | error e => rfl
  | ok v =>
      cases v with
      | true => rfl
      | false => exact absurd hval hv

/-- Handlers change neither the kind, the flag nor the handlers of a time input. -/
theorem InputValue.raise_time (E : Externals) (n : Nat) (self : InputValue) (h : self.isTimeInput = true) :
    (self.raise E n).isTimeInput = true ∧
    (self.raise E n).changedValidationEnabled = self.changedValidationEnabled ∧
    (self.raise E n).valueChangedHandlers = self.valueChangedHandlers := by
  induction n generalizing self with
  | zero => exact ⟨h, rfl, rfl⟩
  | succ n ih =>
      have hd := InputValue.Validate_time E self h
      have h1 : (self.Validate E).2.isTimeInput = true := by
        simp only [InputValue.isTimeInput, hd]; exact h
      have := ih _ h1
      simp only [InputValue.raise]
      refine ⟨this.1, ?_, ?_⟩
      · rw [this.2.1]; simp only [InputValue.changedValidationEnabled, hd]
      · rw [this.2.2]; simp only [InputValue.valueChangedHandlers, hd]

/-- An edit keeps the kind of a time input. -/
theorem InputValue.edit_time (self : InputValue) (e : Edit) (h : self.isTimeInput = true) :
    (self.edit e).isTimeInput = true := by
  obtain ⟨border, error, d⟩ := self
  cases d <;> simp only [InputValue.isTimeInput, Bool.false_eq_true] at h
  cases e <;> rfl

/-- An event changes neither the kind, the flag nor the handlers of a time input. -/
theorem InputValue.step_time (E : Externals) (self : InputValue) (event : Event)
    (h : self.isTimeInput = true) :
    (self.step E event).2.isTimeInput = true ∧
    (self.step E event).2.changedValidationEnabled = self.changedValidationEnabled ∧
    (self.step E event).2.valueChangedHandlers = self.valueChangedHandlers := by
  cases event with
  | validate => exact InputValue.raise_time E 1 self h
  | valueChanged e =>
      have h1 := InputValue.raise_time E ((self.edit e).valueChangedHandlers.getD e.target 0) (self.edit e)
        (InputValue.edit_time self e h)
      have h2 := InputValue.edit_handlers self e
      exact ⟨h1.1, h1.2.1.trans h2.1, h1.2.2.trans h2.2⟩
  | lostFocus child => exact InputValue.raise_time E _ self h

/-- A sequence of events changes neither the kind, the flag nor the handlers of a time input. -/
theorem InputValue.run_time (E : Externals) (events : List Event) (self : InputValue)
    (h : self.isTimeInput = true) :
    (self.run E events).isTimeInput = true ∧
    (self.run E events).changedValidationEnabled = self.changedValidationEnabled ∧
    (self.run E events).valueChangedHandlers = self.valueChangedHandlers := by
  induction events generalizing self with
  | nil => exact ⟨h, rfl, rfl⟩
  | cons event events ih =>
      have h1 := InputValue.step_time E self event h
      have h2 := ih _ h1.1
      exact ⟨h2.1, h2.2.1.trans h1.2.1, h2.2.2.trans h1.2.2⟩

/-- Claim C20: for every time input, whatever `IsRequired`, `Min` and `Max` are and whatever the
parser of the bounds does, `TimeInputValue::IsValueValid` yields true when the time of the picker
is in `[0, 24h)`; the accessor never returns the empty string; the validity is never false in
any state; and so through every sequence of events the flag and the value-changed handler of the
picker stay as they were: a time input never becomes eager. -/
theorem C20_time_input_always_valid (E : Externals) (border : Option Border) (error : Option ErrorMessage)
    (m : AdaptiveTimeInput) (picker : TimePicker) (enabled : Bool) :
    (0 ≤ picker.Time → picker.Time < 864000000000 →
      TimeInputValue.IsValueValid E ⟨border, error, .TimeInputValue m picker enabled⟩ m picker = .ok true ∧
      (InputValue.Validate E ⟨border, error, .TimeInputValue m picker enabled⟩).1 = .ok true) ∧
    (∀ value, TimeInputValue.get_CurrentValue picker = .ok value → value ≠ "") ∧
    InputValue.virtual_IsValueValid E ⟨border, error, .TimeInputValue m picker enabled⟩ ≠ .ok false ∧
    (∀ events : List Event,
      (InputValue.run E ⟨border, error, .TimeInputValue m picker enabled⟩ events).changedValidationEnabled
        = enabled ∧
      (InputValue.run E ⟨border, error, .TimeInputValue m picker enabled⟩ events).valueChangedHandlers
        = [picker.TimeChanged]) := by
  have hne := InputValue.virtual_IsValueValid_time E ⟨border, error, .TimeInputValue m picker enabled⟩ rfl
  refine ⟨?_, TimeInputValue.get_CurrentValue_ne_empty picker, hne, ?_⟩
  · intro h0 h24
    obtain ⟨time, timeChanged, lostFocus⟩ := picker
    simp only at h0 h24
    obtain ⟨d, rfl⟩ := Int.eq_ofNat_of_zero_le h0
    have hd : d < 864000000000 := by omega
    have hacc := TimeInputValue.get_CurrentValue_eq d timeChanged lostFocus hd
    have hv : TimeInputValue.IsValueValid E
        ⟨border, error, .TimeInputValue m ⟨(d : Int), timeChanged, lostFocus⟩ enabled⟩ m
        ⟨(d : Int), timeChanged, lostFocus⟩ = .ok true := by
      have hneq := TimeInputValue.get_CurrentValue_ne_empty _ _ hacc
      rw [TimeInputValue.IsValueValid_time_eq]
      cases hr : m.IsRequired <;>
        simp [InputValue.IsValueValid, InputValue.get_IsRequired, InputValue.get_CurrentValue, hr, hacc,
          HString.IsValid, hneq]
    refine ⟨hv, ?_⟩
    rw [InputValue.Validate_fst]
    exact hv
  · intro events
    have := InputValue.run_time E events ⟨border, error, .TimeInputValue m picker enabled⟩ rfl
    exact ⟨this.2.1, this.2.2⟩

/-- Initialization when the focus-loss handler goes to the bound control: it succeeds, adds one
handler to the control when inline validation is enabled and none when it is not, and adds no
value-changed handler. -/
theorem InputValue.RuntimeClassInitialize_focusOnControl (renderContext : AdaptiveRenderContext)
    (self : InputValue) (h : self.focusOnControl = true) :
    (InputValue.RuntimeClassInitialize renderContext self).1 = .ok () ∧
    (InputValue.RuntimeClassInitialize renderContext self).2.lostFocusHandlers none
      = self.lostFocusHandlers none + (if renderContext.InlineValidation then 1 else 0) ∧
    (∀ i, (InputValue.RuntimeClassInitialize renderContext self).2.lostFocusHandlers (some i)
      = self.lostFocusHandlers (some i)) ∧
    (InputValue.RuntimeClassInitialize renderContext self).2.valueChangedHandlers
      = self.valueChangedHandlers := by
  obtain ⟨border, error, d⟩ := self
  unfold InputValue.RuntimeClassInitialize
  cases renderContext.InlineValidation
  · exact ⟨rfl, rfl, fun _ => rfl, rfl⟩
  · cases d with
    | ChoiceSetInputValue m ui enabled =>
        simp only [InputValue.focusOnControl, decide_eq_true_eq] at h
        simp only [InputValue.virtual_EnableFocusLostValidation, ChoiceSetInputValue.EnableFocusLostValidation,
          if_pos h, if_true]
        cases ui <;> exact ⟨rfl, rfl, fun _ => rfl, rfl⟩
    | _ => exact ⟨rfl, rfl, fun _ => rfl, rfl⟩

/-- Initialization of a choice set that is not both compact and single-select, bound to a panel
with at least one child: it succeeds, and with inline validation enabled it adds one focus-loss
handler to the last child and to nothing else. -/
theorem InputValue.RuntimeClassInitialize_focusOnLastChoice (renderContext : AdaptiveRenderContext)
    (border : Option Border) (error : Option ErrorMessage) (m : AdaptiveChoiceSetInput)
    (children : List CheckBox) (lostFocus : Nat) (enabled : Bool)
    (h : ¬ (m.ChoiceSetStyle = .Compact ∧ m.IsMultiSelect = false))
    (hpos : 0 < children.length) (hsize : children.length < 4294967296) :
    (InputValue.RuntimeClassInitialize renderContext
      ⟨border, error, .ChoiceSetInputValue m (.panel children lostFocus) enabled⟩).1 = .ok () ∧
    (InputValue.RuntimeClassInitialize renderContext
      ⟨border, error, .ChoiceSetInputValue m (.panel children lostFocus) enabled⟩).2.lostFocusHandlers none
      = lostFocus ∧
    (∀ i, (InputValue.RuntimeClassInitialize renderContext
      ⟨border, error, .ChoiceSetInputValue m (.panel children lostFocus) enabled⟩).2.lostFocusHandlers (some i)
      = InputValue.lostFocusHandlers
          ⟨border, error, .ChoiceSetInputValue m (.panel children lostFocus) enabled⟩ (some i)
        + (if renderContext.InlineValidation = true ∧ i = children.length - 1 then 1 else 0)) ∧
    (InputValue.RuntimeClassInitialize renderContext
      ⟨border, error, .ChoiceSetInputValue m (.panel children lostFocus) enabled⟩).2.valueChangedHandlers
      = children.map (·.Click) := by
  unfold InputValue.RuntimeClassInitialize
  cases renderContext.InlineValidation
  · exact ⟨rfl, rfl, fun _ => by simp, rfl⟩
  · simp only [InputValue.virtual_EnableFocusLostValidation, ChoiceSetInputValue.EnableFocusLostValidation,
      if_neg h, if_true]
    obtain ⟨index, hindex⟩ : ∃ index, index = (children.length + 4294967295) % 4294967296 := ⟨_, rfl⟩
    rw [← hindex]
    have hidx : index = children.length - 1 := by omega
    have hlt : index < children.length := by omega
    unfold IVector.GetAt
    have hneg : ¬ ((index : Int) < 0) := Int.not_lt.mpr (Int.ofNat_nonneg index)
    rw [if_neg hneg, Int.toNat_ofNat]
    have hget : children[index]? = some children[index] := List.getElem?_eq_getElem hlt
    rw [hget]
    refine ⟨rfl, rfl, ?_, ?_⟩
    · intro i
      simp only [InputValue.lostFocusHandlers, true_and, ← hidx]
      by_cases hi : i = index
      · subst hi
        simp [hlt]
      · have hne : ¬ index = i := fun h' => hi h'.symm
        simp [List.getElem?_set, hne, hi]
    · simp only [InputValue.valueChangedHandlers]
      exact map_set_of_eq (fun c : CheckBox => c.Click) children index children[index]
        { children[index] with LostFocus := children[index].LostFocus + 1 } hget rfl

/-- Claim C14, at the input where the code departs from it: an expanded single-select choice set
bound to a panel without children, with inline validation enabled.  The initialization of the
base class fails with `E_BOUNDS` (the last child is fetched at index `0 - 1` in `UINT`), and
`ChoiceSetInputValue::RuntimeClassInitialize`, which does not test that result, returns success.
The other five classes return the result of the base class. -/
theorem C14_choice_set_initialize_drops_failure :
    (InputValue.RuntimeClassInitialize ⟨true⟩
      ⟨none, none, .ChoiceSetInputValue ⟨false, .Expanded, false, []⟩ (.panel [] 0) false⟩).1
        = .error .E_BOUNDS ∧
    (ChoiceSetInputValue.RuntimeClassInitialize ⟨true⟩ ⟨false, .Expanded, false, []⟩ (.panel [] 0) none none).1
        = .ok () ∧
    (∀ (c : AdaptiveRenderContext) (m : AdaptiveTextInput) (box : TextBox) (border : Option Border)
        (error : Option ErrorMessage),
      (TextInputValue.RuntimeClassInitialize c m box border error).1
        = (InputValue.RuntimeClassInitialize c ⟨border, error, .TextInputValue m box false⟩).1) ∧
    (∀ (c : AdaptiveRenderContext) (m : AdaptiveNumberInput) (box : TextBox) (border : Option Border)
        (error : Option ErrorMessage),
      (NumberInputValue.RuntimeClassInitialize c m box border error).1
        = (InputValue.RuntimeClassInitialize c ⟨border, error, .NumberInputValue m box false⟩).1) ∧
    (∀ (c : AdaptiveRenderContext) (m : AdaptiveDateInput) (picker : CalendarDatePicker)
        (border : Option Border) (error : Option ErrorMessage),
      (DateInputValue.RuntimeClassInitialize c m picker border error).1
        = (InputValue.RuntimeClassInitialize c ⟨border, error, .DateInputValue m picker false⟩).1) ∧
    (∀ (c : AdaptiveRenderContext) (m : AdaptiveTimeInput) (picker : TimePicker) (border : Option Border)
        (error : Option ErrorMessage),
      (TimeInputValue.RuntimeClassInitialize c m picker border error).1
        = (InputValue.RuntimeClassInitialize c ⟨border, error, .TimeInputValue m picker false⟩).1) ∧
    (∀ (c : AdaptiveRenderContext) (m : AdaptiveToggleInput) (box : CheckBox) (border : Option Border)
        (error : Option ErrorMessage),
      (ToggleInputValue.RuntimeClassInitialize c m box border error).1
        = (InputValue.RuntimeClassInitialize c ⟨border, error, .ToggleInputValue m box false⟩).1) := by
  refine ⟨by decide, by decide, ?_, ?_, ?_, ?_, ?_⟩ <;> intros <;> rfl

/-- Claim C15, at the input where the code departs from it: an expanded single-select choice set
bound to a panel without children, with inline validation enabled.  The initialization returns
success and leaves the instance as constructed: no focus-loss handler is on the panel or on any
choice control, where the claim has exactly one. -/
theorem C15_choice_set_initialize_without_focus_handler :
    ChoiceSetInputValue.RuntimeClassInitialize ⟨true⟩ ⟨false, .Expanded, false, []⟩ (.panel [] 0) none none
      = (.ok (), ⟨none, none, .ChoiceSetInputValue ⟨false, .Expanded, false, []⟩ (.panel [] 0) false⟩) ∧
    InputValue.lostFocusHandlers
      (ChoiceSetInputValue.RuntimeClassInitialize ⟨true⟩ ⟨false, .Expanded, false, []⟩ (.panel [] 0) none none).2
      none = 0 ∧
    (∀ i, InputValue.lostFocusHandlers
      (ChoiceSetInputValue.RuntimeClassInitialize ⟨true⟩ ⟨false, .Expanded, false, []⟩ (.panel [] 0) none none).2
      (some i) = 0) := by
  refine ⟨by decide, by decide, ?_⟩
  intro i
  rfl

/-- Claim C16: for every duration `d` of the time picker in ticks of 100 ns with `0 ≤ d` and
`d` below 24 hours, the accessor returns the five characters `HH:MM`, where `HH` is
`d / 36000000000` (below 24) and `MM` is `d / 600000000 % 60` (below 60), each written with two
decimal digits. -/
theorem C16_time_accessor (d timeChanged lostFocus : Nat) (h : d < 864000000000) :
    TimeInputValue.get_CurrentValue ⟨(d : Int), timeChanged, lostFocus⟩
        = .ok (HHMM (d / 36000000000) (d / 600000000 % 60)) ∧
    (HHMM (d / 36000000000) (d / 600000000 % 60)).length = 5 ∧
    d / 36000000000 < 24 ∧ d / 600000000 % 60 < 60 := by
  refine ⟨TimeInputValue.get_CurrentValue_eq d timeChanged lostFocus h, rfl, ?_, ?_⟩ <;> omega

/-- Claim C16 at 08:59:59.9999999 (323459999999 ticks): the accessor returns `08:59`. -/
theorem C16_time_accessor_witness :
    323459999999 < 864000000000 ∧
    TimeInputValue.get_CurrentValue ⟨(323459999999 : Nat), 0, 0⟩ = .ok "08:59" :=
  ⟨by decide, (C16_time_accessor 323459999999 0 0 (by decide)).1.trans (by decide)⟩

/-- Claim C17: for every expanded single-select choice set whose panel has as many children as
the model has choices, the accessor returns the declared value of the first checked control in
rendering order (the head of the checked values), and the empty string when no control is
checked. -/
theorem C17_expanded_single_select_accessor (m : AdaptiveChoiceSetInput) (children : List CheckBox)
    (lostFocus : Nat) (hstyle : m.ChoiceSetStyle = .Expanded) (hsingle : m.IsMultiSelect = false)
    (hlen : children.length = m.Choices.length) :
    ChoiceSetInputValue.get_CurrentValue m (.panel children lostFocus)
        = .ok ((checkedValues m.Choices children).head?.getD "") ∧
    ((∀ c ∈ children, c.IsChecked = false) →
      ChoiceSetInputValue.get_CurrentValue m (.panel children lostFocus) = .ok "") := by
  have h : ChoiceSetInputValue.get_CurrentValue m (.panel children lostFocus)
      = .ok ((checkedValues m.Choices children).head?.getD "") := by
    have := ChoiceSetInputValue.singleSelectLoop_eq m children 0 (by simpa using le_of_eq hlen)
    simp only [List.drop_zero] at this
    simp [ChoiceSetInputValue.get_CurrentValue, hstyle, hsingle, this]
  refine ⟨h, ?_⟩
  intro hnone
  have hnil : checkedValues m.Choices children = [] := by
    unfold checkedValues
    rw [List.map_eq_nil_iff, List.filter_eq_nil_iff]
    intro p hp
    have := hnone p.1 (List.of_mem_zip hp).1
    simp [this]
  rw [h, hnil]
  rfl

/-- Claim C17 at the values `a`, `b`, `c` with the second and the third control checked: the
accessor returns `b`. -/
theorem C17_expanded_single_select_accessor_witness :
    [(⟨false, 0, 0⟩ : CheckBox), ⟨true, 0, 0⟩, ⟨true, 0, 0⟩].length
        = (AdaptiveChoiceSetInput.mk false .Expanded false [⟨"a"⟩, ⟨"b"⟩, ⟨"c"⟩]).Choices.length ∧
    ChoiceSetInputValue.get_CurrentValue ⟨false, .Expanded, false, [⟨"a"⟩, ⟨"b"⟩, ⟨"c"⟩]⟩
        (.panel [⟨false, 0, 0⟩, ⟨true, 0, 0⟩, ⟨true, 0, 0⟩] 0) = .ok "b" :=
  ⟨rfl,
    (C17_expanded_single_select_accessor ⟨false, .Expanded, false, [⟨"a"⟩, ⟨"b"⟩, ⟨"c"⟩]⟩
      [⟨false, 0, 0⟩, ⟨true, 0, 0⟩, ⟨true, 0, 0⟩] 0 rfl rfl rfl).1.trans (by decide)⟩

/-- Claim C18: for every compact single-select choice set bound to a selector, the accessor
returns the empty string when the selected index is `-1`, and the declared value of the choice
at the selected index for every index inside the list of choices. -/
theorem C18_compact_single_select_accessor (m : AdaptiveChoiceSetInput) (selector : Selector)
    (hstyle : m.ChoiceSetStyle = .Compact) (hsingle : m.IsMultiSelect = false) :
    (selector.SelectedIndex = -1 →
      ChoiceSetInputValue.get_CurrentValue m (.selector selector) = .ok "") ∧
    (∀ (i : Nat) (choice : AdaptiveChoiceInput), m.Choices[i]? = some choice →
      selector.SelectedIndex = (i : Int) →
      ChoiceSetInputValue.get_CurrentValue m (.selector selector) = .ok choice.Value) := by
  constructor
  · intro h
    simp [ChoiceSetInputValue.get_CurrentValue, hstyle, hsingle, ChoiceSetInputValue.GetChoiceValue, h]
  · intro i choice hchoice h
    simp only [ChoiceSetInputValue.get_CurrentValue, hstyle, hsingle, and_self, if_true, h]
    exact ChoiceSetInputValue.GetChoiceValue_ofNat m i choice hchoice

/-- Claim C18 at the values `a`, `b`, `c`: no selection gives the empty string, the index 2 gives
`c`. -/
theorem C18_compact_single_select_accessor_witness :
    ChoiceSetInputValue.get_CurrentValue ⟨false, .Compact, false, [⟨"a"⟩, ⟨"b"⟩, ⟨"c"⟩]⟩
        (.selector ⟨-1, 0, 0⟩) = .ok "" ∧
    ChoiceSetInputValue.get_CurrentValue ⟨false, .Compact, false, [⟨"a"⟩, ⟨"b"⟩, ⟨"c"⟩]⟩
        (.selector ⟨2, 0, 0⟩) = .ok "c" :=
  ⟨(C18_compact_single_select_accessor ⟨false, .Compact, false, [⟨"a"⟩, ⟨"b"⟩, ⟨"c"⟩]⟩ ⟨-1, 0, 0⟩ rfl rfl).1 rfl,
    (C18_compact_single_select_accessor ⟨false, .Compact, false, [⟨"a"⟩, ⟨"b"⟩, ⟨"c"⟩]⟩ ⟨2, 0, 0⟩ rfl rfl).2
      2 ⟨"c"⟩ rfl rfl⟩

/-- Claim C19: for every toggle input the accessor returns `valueOn` of the model when the check
box is checked and `valueOff` when it is not, unchanged. -/
theorem C19_toggle_accessor (border : Option Border) (error : Option ErrorMessage)
    (m : AdaptiveToggleInput) (box : CheckBox) (enabled : Bool) :
    ToggleInputValue.get_CurrentValue m box = .ok (if box.IsChecked then m.ValueOn else m.ValueOff) ∧
    InputValue.get_CurrentValue ⟨border, error, .ToggleInputValue m box enabled⟩
        = .ok (if box.IsChecked then m.ValueOn else m.ValueOff) := by
  cases h : box.IsChecked <;>
    simp [InputValue.get_CurrentValue, ToggleInputValue.get_CurrentValue, XamlHelpers.GetToggleValue, h]

/-- Claim C11 at a required text input with an empty box: the flag is false after the
initialization, true after the first validation, and still true after later edits, validations and
a loss of focus. -/
theorem C11_flag_starts_false_and_is_monotone_witness :
    Example.initializedText.changedValidationEnabled = false ∧
    (Example.initializedText.Validate stdlib).2.changedValidationEnabled = true ∧
    ((Example.initializedText.Validate stdlib).2.run stdlib
      [.valueChanged (.Text "x"), .validate, .lostFocus none, .valueChanged (.Text "")]).changedValidationEnabled
        = true :=
  ⟨(C11_flag_starts_false_and_is_monotone stdlib).1 ⟨true⟩ ⟨true, ""⟩ ⟨"", 0, 0⟩ (some ⟨⟨0, 0, 0, 0⟩⟩)
      (some ⟨.Collapsed⟩),
    by decide,
    (C11_flag_starts_false_and_is_monotone stdlib).2.2.2.2.2.2.1 (Example.initializedText.Validate stdlib).2
      [.valueChanged (.Text "x"), .validate, .lostFocus none, .valueChanged (.Text "")] (by decide)⟩

/-- Claim C12 at a required text input: the validation of the empty box returns false and sets the
flag; the validation of the box with `x` returns true and leaves the flag false. -/
theorem C12_eager_exactly_when_invalid_witness :
    (Example.initializedText.Validate stdlib).1 = .ok false ∧
    (Example.initializedText.Validate stdlib).2.changedValidationEnabled = true ∧
    ((Example.initializedText.edit (.Text "x")).Validate stdlib).1 = .ok true ∧
    ((Example.initializedText.edit (.Text "x")).Validate stdlib).2.changedValidationEnabled = false :=
  ⟨by decide,
    (C12_eager_exactly_when_invalid stdlib Example.initializedText).1.mpr (Or.inr (by decide)),
    by decide,
    ((C12_eager_exactly_when_invalid stdlib (Example.initializedText.edit (.Text "x"))).2.1 (by decide)).1.trans
      (by decide)⟩

/-- Claim C20 at a required time input with the bounds `09:00` and `17:00` and the picker at
08:59. -/
theorem C20_time_input_always_valid_witness :
    (0 : Int) ≤ 323400000000 ∧ (323400000000 : Int) < 864000000000 ∧
    (InputValue.Validate stdlib
      ⟨none, none, .TimeInputValue ⟨true, "09:00", "17:00"⟩ ⟨323400000000, 0, 0⟩ false⟩).1 = .ok true :=
  ⟨by decide, by decide,
    ((C20_time_input_always_valid stdlib none none ⟨true, "09:00", "17:00"⟩ ⟨323400000000, 0, 0⟩ false).1
      (by decide) (by decide)).2⟩

/-- The validity of an empty text box whose model is not required and declares a pattern: the
match of the empty string, when `std::regex` accepts the pattern. -/
theorem TextInputValue.IsValueValid_optional_empty (E : Externals) (border : Option Border)
    (error : Option ErrorMessage) (m : AdaptiveTextInput) (box : TextBox) (enabled : Bool)
    (hopt : m.IsRequired = false) (hdecl : m.Regex ≠ "") (hempty : box.Text = "") :
    InputValue.virtual_IsValueValid E ⟨border, error, .TextInputValue m box enabled⟩
      = (match E.regex m.Regex with
         | none => .error .regex_error
         | some pattern => .ok (pattern "")) := by
  have h : InputValue.virtual_IsValueValid E ⟨border, error, .TextInputValue m box enabled⟩
      = TextInputValue.IsValueValid E ⟨border, error, .TextInputValue m box enabled⟩ m := rfl
  rw [h, TextInputValue.IsValueValid_text_eq, if_neg hdecl, hopt, hempty]
  cases E.regex m.Regex <;> simp

/-- An empty text box whose model is not required and declares a pattern: the validity is true
if and only if `std::regex` accepts the declared pattern and the pattern matches the empty
string; when an accepted pattern does not match the empty string, `Validate` returns false,
shows the feedback regions that are present, sets the flag, and an instance that was lazy is
eager afterwards; when `std::regex` rejects the declared pattern the call ends with
`regex_error` and the instance is unchanged. -/
theorem TextInputValue.Validate_optional_empty (E : Externals) (border : Option Border)
    (error : Option ErrorMessage) (m : AdaptiveTextInput) (box : TextBox) (enabled : Bool)
    (hopt : m.IsRequired = false) (hdecl : m.Regex ≠ "") (hempty : box.Text = "") :
    (InputValue.virtual_IsValueValid E ⟨border, error, .TextInputValue m box enabled⟩ = .ok true ↔
      ∃ pattern, E.regex m.Regex = some pattern ∧ pattern "" = true) ∧
    (∀ pattern, E.regex m.Regex = some pattern → pattern "" = false →
      (InputValue.Validate E ⟨border, error, .TextInputValue m box enabled⟩).1 = .ok false ∧
      (InputValue.Validate E ⟨border, error, .TextInputValue m box enabled⟩).2.m_validationBorder
        = border.map (fun _ => { BorderThickness := ⟨1, 1, 1, 1⟩ }) ∧
      (InputValue.Validate E ⟨border, error, .TextInputValue m box enabled⟩).2.m_validationError
        = error.map (fun _ => { Visibility := .Visible }) ∧
      (InputValue.Validate E ⟨border, error, .TextInputValue m box enabled⟩).2.changedValidationEnabled = true ∧
      (InputValue.Lazy ⟨border, error, .TextInputValue m box enabled⟩ →
        (InputValue.Validate E ⟨border, error, .TextInputValue m box enabled⟩).2.Eager)) ∧
    (E.regex m.Regex = none →
      InputValue.Validate E ⟨border, error, .TextInputValue m box enabled⟩
        = (.error .regex_error, ⟨border, error, .TextInputValue m box enabled⟩)) := by
  have hv := TextInputValue.IsValueValid_optional_empty E border error m box enabled hopt hdecl hempty
  refine ⟨?_, ?_, ?_⟩
  · rw [hv]
    cases hr : E.regex m.Regex with
    | none => simp
    | some pattern => simp
  · intro pattern hr hno
    rw [hr] at hv
    simp only [hno] at hv
    have h := InputValue.Validate_of_invalid E _ hv
    have hreg := InputValue.Validate_regions E _ false h.1
    exact ⟨h.1, hreg.1, hreg.2, h.2.1, fun hl => h.2.2 (Or.inl hl)⟩
  · intro hr
    rw [hr] at hv
    rw [InputValue.Validate_eq, hv]

/-- Claim C21, at the input where the code departs from it: a text input that is not required,
with an empty box and the declared pattern `(`, which `std::regex` rejects and which therefore
accepts no string, the empty one included.  The constructor of the pattern throws, nothing
catches it, and `Validate` ends with that exception: the field is not reported invalid (no
false is returned, the feedback regions stay as they were) and eager mode is not armed (no
handler, the flag stays false).  With the pattern `[0-9]+`, which does not match the empty
string either, the same call returns false, shows both regions and adds the handler; with
`[0-9]*`, which matches it, the empty box is valid. -/
theorem C21_optional_empty_text_uncaught_regex_error :
    InputValue.get_IsRequired
        ⟨some ⟨⟨0, 0, 0, 0⟩⟩, some ⟨.Collapsed⟩, .TextInputValue ⟨false, "("⟩ ⟨"", 0, 0⟩ false⟩ = false ∧
    InputValue.get_CurrentValue
        ⟨some ⟨⟨0, 0, 0, 0⟩⟩, some ⟨.Collapsed⟩, .TextInputValue ⟨false, "("⟩ ⟨"", 0, 0⟩ false⟩ = .ok "" ∧
    (stdlib.regex "(").isNone = true ∧
    InputValue.virtual_IsValueValid stdlib
        ⟨some ⟨⟨0, 0, 0, 0⟩⟩, some ⟨.Collapsed⟩, .TextInputValue ⟨false, "("⟩ ⟨"", 0, 0⟩ false⟩
      = .error .regex_error ∧
    InputValue.Validate stdlib
        ⟨some ⟨⟨0, 0, 0, 0⟩⟩, some ⟨.Collapsed⟩, .TextInputValue ⟨false, "("⟩ ⟨"", 0, 0⟩ false⟩
      = (.error .regex_error,
          ⟨some ⟨⟨0, 0, 0, 0⟩⟩, some ⟨.Collapsed⟩, .TextInputValue ⟨false, "("⟩ ⟨"", 0, 0⟩ false⟩) ∧
    (stdlib.regex "[0-9]+").map (fun pattern => pattern "") = some false ∧
    InputValue.Validate stdlib
        ⟨some ⟨⟨0, 0, 0, 0⟩⟩, some ⟨.Collapsed⟩, .TextInputValue ⟨false, "[0-9]+"⟩ ⟨"", 0, 0⟩ false⟩
      = (.ok false,
          ⟨some ⟨⟨1, 1, 1, 1⟩⟩, some ⟨.Visible⟩, .TextInputValue ⟨false, "[0-9]+"⟩ ⟨"", 1, 0⟩ true⟩) ∧
    (stdlib.regex "[0-9]*").map (fun pattern => pattern "") = some true ∧
    (InputValue.Validate stdlib
        ⟨some ⟨⟨0, 0, 0, 0⟩⟩, some ⟨.Collapsed⟩, .TextInputValue ⟨false, "[0-9]*"⟩ ⟨"", 0, 0⟩ false⟩).1
      = .ok true := by
  decide

/-- The ordinal comparison of two sequences is zero exactly when they are equal. -/
theorem compareOrdinal_eq_zero (a b : List Char) : compareOrdinal a b = 0 ↔ a = b := by
  induction a generalizing b with
  | nil => cases b <;> simp [compareOrdinal]
  | cons c1 rest1 ih =>
      cases b with
      | nil => simp [compareOrdinal]
      | cons c2 rest2 =>
          unfold compareOrdinal
          by_cases h : c1 = c2
          · simp [h, ih]
          · by_cases h2 : c1 < c2 <;> simp [h, h2]

/-- The ordinal comparison of two strings is zero exactly when they are equal. -/
theorem WindowsCompareStringOrdinal_eq_zero (string1 string2 : String) :
    WindowsCompareStringOrdinal string1 string2 = 0 ↔ string1 = string2 := by
  unfold WindowsCompareStringOrdinal
  rw [compareOrdinal_eq_zero, String.ext_iff]

/-- The outcome of the comparison the renderer passes to `SetToggleValue`. -/
theorem WindowsCompareStringOrdinal_beq_zero (string1 string2 : String) :
    (WindowsCompareStringOrdinal string1 string2 == 0) = decide (string1 = string2) := by
  by_cases h : string1 = string2
  · rw [(WindowsCompareStringOrdinal_eq_zero _ _).mpr h, decide_eq_true h]
    rfl
  · have h0 : ¬ WindowsCompareStringOrdinal string1 string2 = 0 :=
      fun h0 => h ((WindowsCompareStringOrdinal_eq_zero _ _).mp h0)
    rw [decide_eq_false h]
    exact beq_false_of_ne h0

/-- What the renderer leaves behind when the host supports interactivity: the slot holds the new
check box, or the stack panel of the label and the new check box, and the checked state of that
check box is the equality of the value of the model and its `valueOn`; the element passed to
`AddInputValueToContext` is what the slot held when the call started. -/
theorem AdaptiveToggleInputRenderer.Render_eq (m : AdaptiveToggleInput) (renderedLabel : Option String)
    (toggleInputControl : Option IUIElement) :
    AdaptiveToggleInputRenderer.Render m true renderedLabel toggleInputControl
      = .ok { toggleInputControl :=
                some (match renderedLabel with
                  | some labelControl => .stackPanel labelControl ⟨decide (m.Value = m.ValueOn), 0, 0⟩
                  | none => .checkBox ⟨decide (m.Value = m.ValueOn), 0, 0⟩),
              warnings := [],
              inputValues := [(m, toggleInputControl)] } := by
  unfold AdaptiveToggleInputRenderer.Render XamlHelpers.SetToggleValue
  simp only [Bool.not_true, Bool.false_eq_true, if_false, WindowsCompareStringOrdinal_beq_zero]
  cases renderedLabel <;> rfl

/-- Without interactivity the renderer adds the warning and nothing else. -/
theorem AdaptiveToggleInputRenderer.Render_stripped (m : AdaptiveToggleInput) (renderedLabel : Option String)
    (toggleInputControl : Option IUIElement) :
    AdaptiveToggleInputRenderer.Render m false renderedLabel toggleInputControl
      = .ok { toggleInputControl := toggleInputControl, warnings := [.InteractivityNotSupported],
              inputValues := [] } := rfl

/-- The accessor of a toggle instance that holds the check box the renderer has made: `valueOn`
if the value of the model equals `valueOn`, and `valueOff` otherwise. -/
theorem ToggleInputValue.get_CurrentValue_of_rendered (m : AdaptiveToggleInput) (click lostFocus : Nat) :
    ToggleInputValue.get_CurrentValue m ⟨decide (m.Value = m.ValueOn), click, lostFocus⟩
      = .ok (if m.Value = m.ValueOn then m.ValueOn else m.ValueOff) := by
  by_cases h : m.Value = m.ValueOn <;>
    simp [ToggleInputValue.get_CurrentValue, XamlHelpers.GetToggleValue, h]

/-- Claim C23, at the input where the code departs from it: the model with the value `yes`,
`valueOn` `yes` and `valueOff` `no`, rendered for a host that supports interactivity, without a
label, into an empty slot.  The renderer makes a check box that is checked, as the claim says,
and the accessor of an instance holding that check box would return `yes`.  But the element the
renderer passes to `AddInputValueToContext` is the content of the slot of the out-parameter,
read before the slot is written: the null pointer, not the check box.  So the input value of
the toggle does not hold the rendered check box.  When the slot holds an element as the call
starts, here a check box that is not checked, that element is passed, and the accessor on it
returns `no`; and with a label the slot ends with the stack panel while the element passed is
still what the slot held. -/
theorem C23_rendered_toggle_input_value_without_check_box :
    AdaptiveToggleInputRenderer.Render ⟨false, "yes", "yes", "no"⟩ true none none
      = .ok { toggleInputControl := some (.checkBox ⟨true, 0, 0⟩), warnings := [],
              inputValues := [(⟨false, "yes", "yes", "no"⟩, none)] } ∧
    ToggleInputValue.get_CurrentValue ⟨false, "yes", "yes", "no"⟩ ⟨true, 0, 0⟩ = .ok "yes" ∧
    AdaptiveToggleInputRenderer.Render ⟨false, "yes", "yes", "no"⟩ true none
        (some (.checkBox ⟨false, 0, 0⟩))
      = .ok { toggleInputControl := some (.checkBox ⟨true, 0, 0⟩), warnings := [],
              inputValues := [(⟨false, "yes", "yes", "no"⟩, some (.checkBox ⟨false, 0, 0⟩))] } ∧
    ToggleInputValue.get_CurrentValue ⟨false, "yes", "yes", "no"⟩ ⟨false, 0, 0⟩ = .ok "no" ∧
    AdaptiveToggleInputRenderer.Render ⟨false, "maybe", "yes", "no"⟩ true (some "Accept") none
      = .ok { toggleInputControl := some (.stackPanel "Accept" ⟨false, 0, 0⟩), warnings := [],
              inputValues := [(⟨false, "maybe", "yes", "no"⟩, none)] } := by
  decide

end AdaptiveNamespace
